import Mathlib

/-!
# Attendance scanner screen: a shallow embedding

Embedding of `src/features/adminShelter/screens/attendance/QrScannerScreen.js`, followed
by the submit handler of `src/features/superAdmin/screens/SuperAdminUserFormScreen.js`,
by a model of the offline queue and the recording authority, which the screen calls and
whose sources are missing, by the step navigation of
`src/features/adminShelter/screens/KeluargaFormScreen.js` and by `src/redux/rootReducer.js`.

The screen is a React function component.  Its state cells (`useState`), the
route parameters and the slice of the Redux store it selects are collected in
the record `Screen`.  Every call the component makes to the outside (API
requests, thunk dispatches, the offline queue, alerts, toasts, the shutter
sound) is an `Effect`; a handler is a function from the state it closes over
and the outcomes of the operations it awaits to the list of effects it
performs, in program order.  Timers (`setTimeout`) are sequentialised: the body
of a timer appears in the trace at the place where the timer is armed, except
for the 1000 ms reset of `isProcessing`, which is an event of its own.
-/

namespace QrScannerScreen

/-! ## Schedule gate (lines 150-166) -/

/-- Values taken by the state cell `activityDateStatus` (line 80, lines 150-166). -/
inductive ActivityDateStatus where
  | valid
  | future
  | past
  | unknown
  deriving DecidableEq, Repr

/-- Milliseconds in a calendar day. -/
def msPerDay : Int := 86400000

/-- The local calendar day, counted from the epoch, of the instant `t` (milliseconds since
the epoch) in a zone whose local time is `tz` milliseconds ahead of UTC. -/
def localDay (tz t : Int) : Int := (t + tz) / msPerDay

/-- The date-fns function `startOfDay` on a JavaScript `Date`: local midnight of the day
of `t`.  `none` is the Invalid Date, which `startOfDay` maps to itself. -/
def startOfDay (tz : Int) : Option Int → Option Int
  | some t => some (localDay tz t * msPerDay - tz)
  | none => none

/-- The date-fns function `isFuture`: `+date > Date.now()`; a comparison with NaN is false. -/
def isFuture (date : Option Int) (now : Int) : Bool :=
  match date with
  | some t => decide (now < t)
  | none => false

/-- The date-fns function `isPast`: `+date < Date.now()`; a comparison with NaN is false. -/
def isPast (date : Option Int) (now : Int) : Bool :=
  match date with
  | some t => decide (t < now)
  | none => false

/-- The route parameter `activityDate` as the screen uses it: `falsy` when it is absent or
empty (`!activityDate`), otherwise the time value of `new Date(activityDate)`, `none`
standing for the Invalid Date. -/
inductive ActivityDateParam where
  | falsy
  | date (time : Option Int)
  deriving DecidableEq, Repr

/-- Lines 150-166.  The value handed to `setActivityDateStatus`.  `now` is the reading of
`Date.now()` inside `isFuture` and `isPast`; the constant `today` of line 156 is computed
and never read. -/
def validateActivityDate (tz : Int) (activityDate : ActivityDateParam) (now : Int) :
    ActivityDateStatus :=
  match activityDate with
  | .falsy => .unknown
  | .date d =>
    let actDate := startOfDay tz d
    if isFuture actDate now then .future
    else if isPast actDate now then .past
    else .valid

/-! ## Data exchanged with the collaborators -/

/-- The object handed to `onScan` by the scanner component; only `token` is read. -/
structure QrData where
  token : String
  deriving DecidableEq, Repr

/-- The `type` argument of `showToast` (lines 205-219, 414-436). -/
inductive ToastType where
  | success
  | warning
  | error
  deriving DecidableEq, Repr

/-- A button of `Alert.alert`.  `onPress` is `some qrData` for the closure
`() => proceedWithScan(qrData)` of line 252 and `none` for a button without handler. -/
structure AlertButton where
  text : String
  style : Option String
  onPress : Option QrData
  deriving DecidableEq, Repr

/-- The argument of the thunk `recordAttendanceByQr` (lines 301-307) and the participant
record given to the offline queue (lines 333-339). -/
structure AttendancePayload where
  id_anak : Nat
  id_aktivitas : Option Nat
  status : Option String
  token : String
  arrival_time : String
  deriving DecidableEq, Repr

/-- The argument of the thunk `recordTutorAttendanceByQr` (lines 361-365). -/
structure TutorPayload where
  id_aktivitas : Option Nat
  token : String
  arrival_time : String
  deriving DecidableEq, Repr

/-- The instructor record given to the offline queue (lines 387-392). -/
structure OfflineTutorPayload where
  id_aktivitas : Option Nat
  token : String
  arrival_time : String
  type : String
  deriving DecidableEq, Repr

/-- First argument of `OfflineSync.processAttendance`. -/
inductive OfflinePayload where
  | participant (payload : AttendancePayload)
  | tutor (payload : OfflineTutorPayload)
  deriving DecidableEq, Repr

/-- Calls the screen makes to its collaborators. -/
inductive Effect where
  | alert (title message : String) (buttons : List AlertButton)
  | validateTutorToken (token : String)
  | dispatchValidateToken (token : String)
  | dispatchRecordAttendanceByQr (payload : AttendancePayload)
  | dispatchRecordTutorAttendanceByQr (payload : TutorPayload)
  | offlineProcessAttendance (payload : OfflinePayload) (method : String)
  | playSound
  | showToast (message : String) (type : ToastType)
  deriving DecidableEq, Repr

/-- An error object caught by a handler: the two properties the handlers read. -/
structure JsError where
  isDuplicate : Bool
  message : Option String
  deriving DecidableEq, Repr

/-- How an awaited promise settles. -/
inductive Settled (α : Type) where
  | fulfilled (value : α)
  | rejected (error : JsError)
  deriving DecidableEq, Repr

/-- The part of `result.data` the handlers read: `absen`, and `absen_user?.tutor?.nama`. -/
structure ResponseData where
  absen : Option String
  tutorNama : Option String
  deriving DecidableEq, Repr

/-- The value of `dispatch(thunk).unwrap()`, taken to be an object; `data` is `none` when
`result.data` is falsy. -/
structure RecordResult where
  data : Option ResponseData
  deriving DecidableEq, Repr

/-- How `tutorAttendanceApi.validateTutorToken(token)` ends: a response whose
`data.success` is truthy or falsy, a response without `data` (reading `.success` then
throws a TypeError), or a rejected request. -/
inductive ProbeOutcome where
  | resolved (success : Bool)
  | malformed
  | rejected (error : JsError)
  deriving DecidableEq, Repr

/-- The `anak` object of a validation result. -/
structure Anak where
  id_anak : Nat
  full_name : Option String
  deriving DecidableEq, Repr

/-- The store value `validationResult` (selector `selectValidationResult`): `valid` is the
truthiness of the field, `token` is `some t` when `validationResult.token` is an object
whose `token` property is `t`, `anak` likewise. -/
structure ValidationResult where
  valid : Bool
  token : Option String
  anak : Option Anak
  deriving DecidableEq, Repr

/-- JavaScript `a || b` on an optional string: the empty string is falsy. -/
def orElse (a : Option String) (b : String) : String :=
  match a with
  | some s => if s = "" then b else s
  | none => b

/-- Truthiness of a numeric route parameter: absent and 0 are falsy. -/
def truthyId : Option Nat → Bool
  | some (_ + 1) => true
  | _ => false

/-! ## Component state -/

/-- The route parameters read at lines 53-60. -/
structure RouteParams where
  id_aktivitas : Option Nat
  activityDate : ActivityDateParam
  activityType : Option String
  kelompokId : Option Nat
  kelompokName : Option String
  deriving DecidableEq, Repr

/-- The values a render of the component closes over: route parameters, `useState` cells
(lines 72-80) and the selected store value `validationResult` (line 63).  `isConnected`
is the truthiness of the cell.  The route parameters are taken as fixed while the screen
is mounted. -/
structure Screen where
  id_aktivitas : Option Nat
  kelompokName : Option String
  isConnected : Bool
  isBimbelActivity : Bool
  kelompokStudentIds : List Nat
  isProcessing : Bool
  activityDateStatus : ActivityDateStatus
  validationResult : Option ValidationResult
  deriving DecidableEq, Repr

/-- The argument of the NetInfo listener: both properties may be `null`. -/
structure NetInfoState where
  isConnected : Option Bool
  isInternetReachable : Option Bool
  deriving DecidableEq, Repr

/-- Truthiness of a nullable boolean. -/
def truthy : Option Bool → Bool
  | some b => b
  | none => false

/-- Outcomes of the operations a recording handler awaits: the formatted clock reading,
the settlement of `dispatch(thunk).unwrap()` and the settlement of
`OfflineSync.processAttendance`, whose value the handlers ignore. -/
structure RecordEnv where
  formattedArrivalTime : String
  submit : Settled RecordResult
  offline : Settled Unit
  deriving DecidableEq, Repr

/-- What happens around one scan: the button the user presses in a dialog (`none` when the
dialog is dismissed), the end of the instructor probe, and the outcomes awaited by the
instructor recording handler. -/
structure ScanEnv where
  pressed : Option Nat
  probe : ProbeOutcome
  tutor : RecordEnv
  deriving DecidableEq, Repr

/-! ## Recording handlers (lines 295-406) -/

/-- Lines 313-324 and 369-380: the status word and toast type read off the response. -/
def presence (result : RecordResult) : String × ToastType :=
  match result.data with
  | some d =>
    match d.absen with
    | some a =>
      if a = "Tidak" then ("Absent", .error)
      else if a = "Terlambat" then ("Late", .warning)
      else ("Present", .success)
    | none => ("Present", .success)
  | none => ("Present", .success)

/-- The catch blocks of lines 346-352 and 399-405. -/
def recordingCatch (fallback : String) (error : JsError) : List Effect :=
  if !error.isDuplicate then [.showToast (orElse error.message fallback) .error] else []

/-- Lines 295-353.  The first three arguments are the variables the callback closes over. -/
def handleAttendanceRecording (isConnected : Bool) (id_aktivitas : Option Nat)
    (validationResult : Option ValidationResult) (env : RecordEnv)
    (token : String) (id_anak : Nat) : List Effect :=
  let payload : AttendancePayload :=
    { id_anak := id_anak, id_aktivitas := id_aktivitas, status := none, token := token,
      arrival_time := env.formattedArrivalTime }
  if isConnected then
    match env.submit with
    | .fulfilled result =>
      let studentName :=
        orElse ((validationResult.bind fun r => r.anak).bind fun a => a.full_name) "Student"
      [.dispatchRecordAttendanceByQr payload, .playSound,
       .showToast ((presence result).1 ++ ": " ++ studentName) (presence result).2]
    | .rejected error =>
      .dispatchRecordAttendanceByQr payload :: recordingCatch "Failed to record" error
  else
    match env.offline with
    | .fulfilled _ =>
      [.offlineProcessAttendance (.participant payload) "qr", .playSound,
       .showToast "Saved for syncing when online" .warning]
    | .rejected error =>
      .offlineProcessAttendance (.participant payload) "qr"
        :: recordingCatch "Failed to record" error

/-- Lines 355-406.  The first two arguments are the variables the callback closes over. -/
def handleTutorAttendanceRecording (isConnected : Bool) (id_aktivitas : Option Nat)
    (env : RecordEnv) (token : String) : List Effect :=
  if isConnected then
    let payload : TutorPayload :=
      { id_aktivitas := id_aktivitas, token := token,
        arrival_time := env.formattedArrivalTime }
    match env.submit with
    | .fulfilled result =>
      let tutorName := orElse (result.data.bind fun d => d.tutorNama) "Tutor"
      [.dispatchRecordTutorAttendanceByQr payload, .playSound,
       .showToast ((presence result).1 ++ ": " ++ tutorName ++ " (Tutor)") (presence result).2]
    | .rejected error =>
      .dispatchRecordTutorAttendanceByQr payload
        :: recordingCatch "Failed to record tutor attendance" error
  else
    let payload : OfflineTutorPayload :=
      { id_aktivitas := id_aktivitas, token := token,
        arrival_time := env.formattedArrivalTime, type := "tutor" }
    match env.offline with
    | .fulfilled _ =>
      [.offlineProcessAttendance (.tutor payload) "qr", .playSound,
       .showToast "Saved for syncing when online" .warning]
    | .rejected error =>
      .offlineProcessAttendance (.tutor payload) "qr"
        :: recordingCatch "Failed to record tutor attendance" error

/-! ## Scan path (lines 231-293) -/

/-- Lines 286-293: the probe request and the value the function returns.  The result type
has room for a thrown error; the `try`/`catch` of the source leaves that room unused. -/
def validateIfTutorToken (token : String) (probe : ProbeOutcome) :
    List Effect × Except JsError Bool :=
  ([.validateTutorToken token],
   match probe with
   | .resolved success => .ok success
   | .malformed => .ok false
   | .rejected _ => .ok false)

/-- The `isConnected` seen by the instructor handler that `proceedWithScan` calls.
`proceedWithScan` is `useCallback(…, [dispatch])` (line 284) and `dispatch` never changes,
so every render receives the function made in the first render; the
`handleTutorAttendanceRecording` in its scope is the first render's, which closed over the
initial value of the cell, `useState(true)` (line 72). -/
def firstRenderIsConnected : Bool := true

/-- Lines 261-284.  `setIsProcessing(true)` is the state change; the timer that resets it
is the event `processingTimeout`. -/
def proceedWithScan (s : Screen) (env : ScanEnv) (qrData : QrData) : Screen × List Effect :=
  let probe := validateIfTutorToken qrData.token env.probe
  let branch :=
    match probe.2 with
    | .ok isTutorToken =>
      if isTutorToken then
        handleTutorAttendanceRecording firstRenderIsConnected s.id_aktivitas env.tutor
          qrData.token
      else [.dispatchValidateToken qrData.token]
    | .error _ => [.dispatchValidateToken qrData.token]
  ({ s with isProcessing := true }, probe.1 ++ branch)

/-- The buttons of the dialog of lines 247-254. -/
def pastActivityButtons (qrData : QrData) : List AlertButton :=
  [{ text := "Cancel", style := some "cancel", onPress := none },
   { text := "Continue", style := none, onPress := some qrData }]

/-- The user's answer to a dialog: the handler of the pressed button runs, if it has one. -/
def pressButton (s : Screen) (env : ScanEnv) (buttons : List AlertButton) :
    Screen × List Effect :=
  match env.pressed with
  | none => (s, [])
  | some i =>
    match buttons.get? i with
    | some b =>
      match b.onPress with
      | some qrData => proceedWithScan s env qrData
      | none => (s, [])
    | none => (s, [])

/-- Lines 231-259, followed by the user's answer to the dialog the call may have opened. -/
def handleScan (s : Screen) (env : ScanEnv) (qrData : QrData) : Screen × List Effect :=
  if !truthyId s.id_aktivitas || s.isProcessing then (s, [])
  else if !truthyId s.id_aktivitas then
    (s, [.alert "Error"
      "No activity selected. Please go back and select an activity first." []])
  else if s.activityDateStatus = .future then
    (s, [.alert "Activity Not Started"
      "This activity has not started yet. Please wait until the activity date." []])
  else if s.activityDateStatus = .past then
    let buttons := pastActivityButtons qrData
    let answer := pressButton s env buttons
    (answer.1,
     .alert "Past Activity"
       "This activity was in the past. Attendance will be marked as absent." buttons
       :: answer.2)
  else proceedWithScan s env qrData

/-! ## Validation effect (lines 135-148) and the event loop -/

/-- Lines 135-148: the body of the effect, run with the render `s` it belongs to. -/
def validationEffect (s : Screen) (env : RecordEnv) : List Effect :=
  match s.validationResult with
  | some r =>
    match r.valid, r.token, r.anak with
    | true, some token, some anak =>
      if s.isBimbelActivity && decide (s.kelompokStudentIds.length > 0)
          && !s.kelompokStudentIds.contains anak.id_anak then
        [.showToast ("Student not in the " ++ orElse s.kelompokName "selected" ++ " group")
          .error]
      else
        handleAttendanceRecording s.isConnected s.id_aktivitas s.validationResult env token
          anak.id_anak
    | _, _, _ => []
  | none => []

/-- What can happen to a mounted screen. -/
inductive Event where
  | scan (qrData : QrData) (env : ScanEnv)
  | processingTimeout
  | netInfo (state : NetInfoState)
  | storeValidationResult (result : Option ValidationResult) (env : RecordEnv)
  | kelompokStudents (ids : List Nat) (env : RecordEnv)
  deriving DecidableEq, Repr

/-- One event: `scan` is the scanner calling `onScan` (line 464); `processingTimeout` is
the timer of lines 280-282; `netInfo` is the listener of lines 104-106;
`storeValidationResult` is the store value changing, which re-runs the effect of lines
135-148; `kelompokStudents` is `setKelompokStudentIds` (lines 181, 185), a dependency of
the same effect. -/
def step (s : Screen) : Event → Screen × List Effect
  | .scan qrData env => handleScan s env qrData
  | .processingTimeout => ({ s with isProcessing := false }, [])
  | .netInfo state =>
    ({ s with isConnected := truthy state.isConnected && truthy state.isInternetReachable },
     [])
  | .storeValidationResult result env =>
    let s1 := { s with validationResult := result }
    (s1, validationEffect s1 env)
  | .kelompokStudents ids env =>
    let s1 := { s with kelompokStudentIds := ids }
    (s1, validationEffect s1 env)

/-- A sequence of events, with the effects performed, in order.  Every event is handled
with all earlier state changes rendered and with its dialog answered in place; `Live.run`
is the account without these two assumptions. -/
def run (s : Screen) : List Event → Screen × List Effect
  | [] => (s, [])
  | ev :: rest =>
    let r1 := step s ev
    let r2 := run r1.1 rest
    (r2.1, r1.2 ++ r2.2)

/-- The state of the first render (lines 72-80). -/
def firstRender (params : RouteParams) (storeResult : Option ValidationResult) : Screen :=
  { id_aktivitas := params.id_aktivitas
    kelompokName := params.kelompokName
    isConnected := true
    isBimbelActivity := decide (params.activityType = some "Bimbel")
    kelompokStudentIds := []
    isProcessing := false
    activityDateStatus := .valid
    validationResult := storeResult }

/-- Mounting: the first render, then the effects of lines 119-127 (`validateActivityDate`)
and 135-148 (run with the first render's closure). -/
def mount (tz : Int) (params : RouteParams) (now : Int)
    (storeResult : Option ValidationResult) (env : RecordEnv) : Screen × List Effect :=
  let s0 := firstRender params storeResult
  ({ s0 with activityDateStatus := validateActivityDate tz params.activityDate now },
   validationEffect s0 env)

/-! ## Classification of effects -/

/-- The instructor probe request. -/
def Effect.isProbe : Effect → Bool
  | .validateTutorToken _ => true
  | _ => false

/-- The dispatch of the participant token validation. -/
def Effect.isValidationDispatch : Effect → Bool
  | .dispatchValidateToken _ => true
  | _ => false

/-- A submission to the recording authority. -/
def Effect.isSubmission : Effect → Bool
  | .dispatchRecordAttendanceByQr _ => true
  | .dispatchRecordTutorAttendanceByQr _ => true
  | _ => false

/-- A hand-over to the offline queue. -/
def Effect.isEnqueue : Effect → Bool
  | .offlineProcessAttendance _ _ => true
  | _ => false

/-- A recording operation: a submission or a hand-over to the offline queue. -/
def Effect.isRecording (e : Effect) : Bool := e.isSubmission || e.isEnqueue

/-- An instructor recording operation. -/
def Effect.isTutorRecording : Effect → Bool
  | .dispatchRecordTutorAttendanceByQr _ => true
  | .offlineProcessAttendance (.tutor _) _ => true
  | _ => false

/-- A toast of type error. -/
def Effect.isErrorToast : Effect → Bool
  | .showToast _ .error => true
  | _ => false

/-- Anything that processes a scan: probe, validation dispatch or recording. -/
def Effect.processesScan (e : Effect) : Bool :=
  e.isProbe || e.isValidationDispatch || e.isRecording

/-- The event is a change of the store value `validationResult`. -/
def Event.isStoreResult : Event → Bool
  | .storeValidationResult _ _ => true
  | _ => false

/-- The text of the button the user pressed, if any. -/
def pressedText (buttons : List AlertButton) (pressed : Option Nat) : Option String :=
  (pressed.bind fun i => buttons.get? i).map fun b => b.text

/-! ## Sample inputs

An activity dated 2024-01-10, read in a zone seven hours ahead of UTC, and a scan at
08:30 local time on that day. -/

/-- Seven hours, in milliseconds. -/
def sampleZone : Int := 25200000

/-- The time value of `new Date('2024-01-10')`: midnight UTC. -/
def sampleActivityDate : Int := 1704844800000

/-- The instant 2024-01-10 08:30 in the sample zone. -/
def sampleNow : Int := 1704850200000

/-- The instant 2024-01-09 08:30 in the sample zone, the day before the activity. -/
def sampleDayBefore : Int := 1704763800000

/-- Route parameters of the sample activity. -/
def sampleParams : RouteParams :=
  { id_aktivitas := some 7
    activityDate := .date (some sampleActivityDate)
    activityType := some "Kegiatan"
    kelompokId := none
    kelompokName := none }

/-- Awaited operations that all succeed, the authority answering without `absen`. -/
def sampleRecordEnv : RecordEnv :=
  { formattedArrivalTime := "2024-01-10 08:30:00"
    submit := .fulfilled { data := some { absen := none, tutorNama := none } }
    offline := .fulfilled () }

/-- An online submission that fails with a network error. -/
def networkErrorEnv : RecordEnv :=
  { formattedArrivalTime := "2024-01-10 08:30:00"
    submit := .rejected { isDuplicate := false, message := some "Network Error" }
    offline := .fulfilled () }

/-- A scan whose probe answers that the token is not an instructor token; the user presses
the second button of a dialog. -/
def participantScanEnv : ScanEnv :=
  { pressed := some 1, probe := .resolved false, tutor := sampleRecordEnv }

/-- A scan whose probe answers that the token is an instructor token. -/
def tutorScanEnv : ScanEnv :=
  { pressed := some 1, probe := .resolved true, tutor := sampleRecordEnv }

/-- A scanned code. -/
def sampleQr : QrData := { token := "T1" }

/-- A valid validation result for participant 1. -/
def sampleValidation : ValidationResult :=
  { valid := true, token := some "T1", anak := some { id_anak := 1, full_name := none } }

/-- The sample screen after mounting at `now`, the store holding no validation result. -/
def sampleScreen (now : Int) : Screen :=
  (mount sampleZone sampleParams now none sampleRecordEnv).1

/-- The instant 2024-01-11 08:30 in the sample zone, the day after the activity. -/
def sampleDayAfter : Int := 1704936600000

/-- A screen opened without an activity date: no schedule gate applies. -/
def undatedScreen : Screen :=
  (mount sampleZone { sampleParams with activityDate := .falsy } sampleNow none
    sampleRecordEnv).1

/-- A connectivity notification reporting no connection. -/
def offlineNotice : NetInfoState :=
  { isConnected := some false, isInternetReachable := some false }

/-- The user presses the first button of a dialog. -/
def cancelScanEnv : ScanEnv :=
  { pressed := some 0, probe := .resolved false, tutor := sampleRecordEnv }

/-! ## Duplicate notice (lines 129-133) and further classifications -/

/-- Truthiness of an optional string: absent and empty are falsy. -/
def truthyStr : Option String → Bool
  | some s => decide (s ≠ "")
  | none => false

/-- Lines 129-133: the effect on the store values `duplicateError` and
`tutorDuplicateError` (selectors of lines 66 and 70). -/
def duplicateErrorEffect (duplicateError tutorDuplicateError : Option String) :
    List Effect :=
  if truthyStr duplicateError || truthyStr tutorDuplicateError then
    [.showToast (orElse duplicateError (tutorDuplicateError.getD "")) .warning]
  else []

/-- A toast of any type. -/
def Effect.isToast : Effect → Bool
  | .showToast _ _ => true
  | _ => false

/-- The event is a connectivity notification. -/
def Event.isNetInfo : Event → Bool
  | .netInfo _ => true
  | _ => false

/-- The last connectivity notification of a sequence of events, if there is one. -/
def lastNotice : List Event → Option NetInfoState
  | [] => none
  | ev :: rest =>
    match lastNotice rest with
    | some state => some state
    | none =>
      match ev with
      | .netInfo state => some state
      | _ => none

/-- The authority accepts the submission and answers with the given `absen`. -/
def answerEnv (arrival : String) (absen : Option String) : RecordEnv :=
  { formattedArrivalTime := arrival
    submit := .fulfilled { data := some { absen := absen, tutorNama := none } }
    offline := .fulfilled () }

/-! ## Group members (lines 168-189) -/

/-- An element of `response.data.data` of `getGroupChildren`: the two properties read. -/
structure GroupChild where
  id_anak : Nat
  status_validasi : Option String
  deriving DecidableEq, Repr

/-- How `adminShelterKelompokApi.getGroupChildren` ends: a response whose `data.data` is
the given list (`none` when `data` or `data.data` is falsy), or a rejected request. -/
inductive GroupFetch where
  | resolved (children : Option (List GroupChild))
  | rejected
  deriving DecidableEq, Repr

/-- Lines 168-189: the value of the cell `kelompokStudentIds` after the call, `prev` being
its value before. -/
def fetchKelompokStudents (prev : List Nat) (kelompokId : Option Nat)
    (outcome : GroupFetch) : List Nat :=
  if !truthyId kelompokId then prev
  else
    match outcome with
    | .resolved (some children) =>
      (children.filter fun student => student.status_validasi = some "aktif").map
        fun student => student.id_anak
    | .resolved none => prev
    | .rejected => []

/-- The participant records submitted to the authority, in order. -/
def submittedRecords (trace : List Effect) : List AttendancePayload :=
  trace.filterMap fun e =>
    match e with
    | .dispatchRecordAttendanceByQr p => some p
    | _ => none

/-- The participant records handed to the offline queue, in order. -/
def queuedRecords (trace : List Effect) : List AttendancePayload :=
  trace.filterMap fun e =>
    match e with
    | .offlineProcessAttendance (.participant p) _ => some p
    | _ => none

/-- A screen for a Bimbel activity of group 'A' whose active members are 2 and 3. -/
def bimbelScreen : Screen :=
  { undatedScreen with
    isBimbelActivity := true
    kelompokName := some "A"
    kelompokStudentIds :=
      fetchKelompokStudents [] (some 4)
        (.resolved (some
          [{ id_anak := 2, status_validasi := some "aktif" },
           { id_anak := 3, status_validasi := some "aktif" },
           { id_anak := 5, status_validasi := some "nonaktif" }])) }

end QrScannerScreen

/-! # Super admin user form

Embedding of `src/features/superAdmin/screens/SuperAdminUserFormScreen.js`: the state
cells the submit handler reads and writes, and the handler itself. -/

namespace SuperAdminUserFormScreen

/-- The role constants `USER_ROLES`, imported from `constants/config` (line 16), a file
that is not among the sources: their values are a parameter. -/
structure UserRoles where
  SUPER_ADMIN : String
  ADMIN_PUSAT : String
  ADMIN_CABANG : String
  ADMIN_SHELTER : String
  DONATUR : String
  deriving DecidableEq, Repr

/-- An identifier as JavaScript holds it: a non-negative whole number or a string. -/
inductive JsId where
  | num (n : Nat)
  | str (s : String)
  deriving DecidableEq, Repr

/-- JavaScript `String(value)` on an identifier (decimal digits for a number). -/
def JsId.toStr : JsId → String
  | .num n => toString n
  | .str s => s

/-- Truthiness of an identifier: 0 and the empty string are falsy. -/
def JsId.truthy : JsId → Bool
  | .num n => decide (n ≠ 0)
  | .str s => decide (s ≠ "")

/-- The two properties of the authenticated user read at lines 73-74. -/
structure AuthUser where
  id : Option JsId
  id_users : Option JsId
  deriving DecidableEq, Repr

/-- Lines 73-74: `authUser?.id ?? authUser?.id_users ?? null`. -/
def resolvedAuthId (authUser : Option AuthUser) : Option JsId :=
  match authUser with
  | some u =>
    match u.id with
    | some i => some i
    | none => u.id_users
  | none => none

/-- Lines 75-79: `resolvedTargetId` is `userId ?? null`. -/
def isSelfModification (authUser : Option AuthUser) (userId : Option JsId) : Bool :=
  match resolvedAuthId authUser, userId with
  | some a, some t => decide (a.toStr = t.toStr)
  | _, _ => false

/-- Lines 83-92. -/
def requiresProfileFields (roles : UserRoles) (role : String) : Bool :=
  [roles.ADMIN_PUSAT, roles.ADMIN_CABANG, roles.ADMIN_SHELTER].contains role

/-- Lines 94-97. -/
def requiresCabang (roles : UserRoles) (role : String) : Bool :=
  [roles.ADMIN_CABANG, roles.ADMIN_SHELTER].contains role

/-- Lines 99-102. -/
def requiresWilbin (roles : UserRoles) (role : String) : Bool :=
  decide (role = roles.ADMIN_SHELTER)

/-- Line 104. -/
def requiresShelter (roles : UserRoles) (role : String) : Bool :=
  requiresWilbin roles role

/-- Line 106. -/
def shouldSendProfile (roles : UserRoles) (role : String) : Bool :=
  requiresProfileFields roles role || requiresCabang roles role || requiresWilbin roles role

/-- The state cell `profileForm` (lines 55-59); its fields hold strings. -/
structure ProfileForm where
  namaLengkap : String
  alamat : String
  noHp : String
  deriving DecidableEq, Repr

/-- The `profile` object of a user payload, as `applyProfileFromPayload` reads it. -/
structure ProfileData where
  nama_lengkap : Option String
  nama : Option String
  nama_lengkap_adm : Option String
  alamat : Option String
  alamat_adm : Option String
  no_hp : Option String
  id_kacab : Option JsId
  id_wilbin : Option JsId
  id_shelter : Option JsId
  deriving DecidableEq, Repr

/-- A user payload of the API: the properties the screen's logic reads. -/
structure UserPayload where
  level : Option String
  status : Option String
  profile : Option ProfileData
  deriving DecidableEq, Repr

/-- The state cells read or written by `handleSubmit` (lines 46-62); `fieldErrors` is the
list of the keys of the object with their messages. -/
structure FormState where
  user : Option UserPayload
  role : String
  status : String
  profileForm : ProfileForm
  selectedKacab : String
  selectedWilbin : String
  selectedShelter : String
  saving : Bool
  formError : Option String
  fieldErrors : List (String × String)
  deriving DecidableEq, Repr

/-- The `profile` property of the request body (lines 445-452). -/
structure ProfilePayload where
  nama_lengkap : Option String
  alamat : Option String
  no_hp : Option String
  id_kacab : Option Nat
  id_wilbin : Option Nat
  id_shelter : Option Nat
  deriving DecidableEq, Repr

/-- The request body of lines 454-461. -/
structure RequestBody where
  level : String
  status : String
  profile : Option ProfilePayload
  deriving DecidableEq, Repr

/-- Calls `handleSubmit` makes to its collaborators. -/
inductive FormEffect where
  | alert (title message : String)
  | update (userId : Option JsId) (body : RequestBody)
  | goBack
  deriving DecidableEq, Repr

/-- How `superAdminUserApi.update` ends: a response whose parsed payload is `payload`
(`none` when there is none), together with the answer of `navigation.canGoBack()`; or an
error whose `response?.data?.message` is `message`. -/
inductive UpdateOutcome where
  | fulfilled (payload : Option UserPayload) (canGoBack : Bool)
  | rejected (message : Option String)
  deriving DecidableEq, Repr

/-- The characters JavaScript's `trim` strips: the white space and line terminator code
points of ECMAScript. -/
def isJsSpace (c : Char) : Bool :=
  c.toNat = 9 || c.toNat = 10 || c.toNat = 11 || c.toNat = 12 || c.toNat = 13 ||
    c.toNat = 32 || c.toNat = 160 || c.toNat = 5760 ||
    (decide (8192 ≤ c.toNat) && decide (c.toNat ≤ 8202)) ||
    c.toNat = 8232 || c.toNat = 8233 || c.toNat = 8239 || c.toNat = 8287 ||
    c.toNat = 12288 || c.toNat = 65279

/-- JavaScript `String.prototype.trim`. -/
def jsTrim (value : String) : String :=
  ⟨((value.data.dropWhile isJsSpace).reverse.dropWhile isJsSpace).reverse⟩

/-- JavaScript `value.trim() || null`: the trimmed text, or null when nothing is left. -/
def trimOrNull (value : String) : Option String :=
  if jsTrim value = "" then none else some (jsTrim value)

/-- Lines 356-363, for a selection holding the decimal digits of an identifier. -/
def toNumberOrNull (value : String) : Option Nat :=
  if value = "" then none else value.toNat?

/-- Lines 309-354: the keys of the `errors` object with their messages, in the order in
which they are assigned. -/
def validateProfile (roles : UserRoles) (f : FormState) : List (String × String) :=
  (if requiresProfileFields roles f.role then
    (if jsTrim f.profileForm.namaLengkap = "" then
      [("nama_lengkap", "Nama lengkap wajib diisi.")] else [])
    ++ (if jsTrim f.profileForm.alamat = "" then [("alamat", "Alamat wajib diisi.")] else [])
    ++ (if jsTrim f.profileForm.noHp = "" then [("no_hp", "Nomor HP wajib diisi.")] else [])
   else [])
  ++ (if requiresCabang roles f.role && decide (f.selectedKacab = "") then
      [("id_kacab", "Cabang wajib dipilih.")] else [])
  ++ (if requiresWilbin roles f.role && decide (f.selectedWilbin = "") then
      [("id_wilbin", "Wilayah binaan wajib dipilih.")] else [])
  ++ (if requiresShelter roles f.role && decide (f.selectedShelter = "") then
      [("id_shelter", "Shelter wajib dipilih.")] else [])

/-- The nullish chain `a ?? b`. -/
def nullish (a b : Option String) : Option String :=
  match a with
  | some x => some x
  | none => b

/-- `id ? String(id) : ''` (lines 147-155). -/
def idText (id : Option JsId) : String :=
  match id with
  | some i => if i.truthy then i.toStr else ""
  | none => ""

/-- Lines 132-159: the cells `applyProfileFromPayload` sets. -/
def applyProfileFromPayload (f : FormState) (profilePayload : Option ProfileData) :
    FormState :=
  match profilePayload with
  | some d =>
    { f with
      profileForm :=
        { namaLengkap := (nullish d.nama_lengkap (nullish d.nama d.nama_lengkap_adm)).getD ""
          alamat := (nullish d.alamat d.alamat_adm).getD ""
          noHp := d.no_hp.getD "" }
      selectedKacab := idText d.id_kacab
      selectedWilbin := idText d.id_wilbin
      selectedShelter := idText d.id_shelter }
  | none =>
    { f with
      profileForm := { namaLengkap := "", alamat := "", noHp := "" }
      selectedKacab := ""
      selectedWilbin := ""
      selectedShelter := "" }

/-- Lines 423-481. -/
def handleSubmit (roles : UserRoles) (authUser : Option AuthUser) (userId : Option JsId)
    (f : FormState) (outcome : UpdateOutcome) : FormState × List FormEffect :=
  if isSelfModification authUser userId then
    (f, [.alert "Tidak Diizinkan" "Anda tidak dapat mengubah role atau status akun sendiri."])
  else if f.role = "" then
    ({ f with formError := some "Role wajib dipilih." }, [])
  else if (validateProfile roles f).length > 0 then
    ({ f with
       fieldErrors := validateProfile roles f
       formError := some "Lengkapi data wajib sebelum menyimpan." }, [])
  else
    let profilePayload : ProfilePayload :=
      { nama_lengkap := trimOrNull f.profileForm.namaLengkap
        alamat := trimOrNull f.profileForm.alamat
        no_hp := trimOrNull f.profileForm.noHp
        id_kacab := toNumberOrNull f.selectedKacab
        id_wilbin := toNumberOrNull f.selectedWilbin
        id_shelter := toNumberOrNull f.selectedShelter }
    let requestBody : RequestBody :=
      { level := f.role
        status := f.status
        profile := if shouldSendProfile roles f.role then some profilePayload else none }
    match outcome with
    | .fulfilled payload canGoBack =>
      let f1 := applyProfileFromPayload { f with user := payload }
        (payload.bind fun u => u.profile)
      ({ f1 with fieldErrors := [], formError := none, saving := false },
       [.update userId requestBody, .alert "Berhasil" "Perubahan role tersimpan."]
         ++ (if canGoBack then [.goBack] else []))
    | .rejected message =>
      ({ f with
         formError := some (QrScannerScreen.orElse message "Perubahan role gagal disimpan.")
         saving := false },
       [.update userId requestBody])

/-- The effect is a call of `superAdminUserApi.update`. -/
def FormEffect.isUpdate : FormEffect → Bool
  | .update _ _ => true
  | _ => false

/-! ## Sample inputs -/

/-- Sample role constants. -/
def sampleRoles : UserRoles :=
  { SUPER_ADMIN := "super_admin"
    ADMIN_PUSAT := "admin_pusat"
    ADMIN_CABANG := "admin_cabang"
    ADMIN_SHELTER := "admin_shelter"
    DONATUR := "donatur" }

/-- The authenticated user, whose identifier is the number 5. -/
def sampleAuthUser : AuthUser := { id := some (.num 5), id_users := none }

/-- A form on which the role donatur and the status 'Tidak Aktif' have been chosen. -/
def sampleForm : FormState :=
  { user := none
    role := "donatur"
    status := "Tidak Aktif"
    profileForm := { namaLengkap := "", alamat := "", noHp := "" }
    selectedKacab := ""
    selectedWilbin := ""
    selectedShelter := ""
    saving := false
    formError := none
    fieldErrors := [] }

/-- The five role constants are different strings. -/
def UserRoles.pairwiseDistinct (roles : UserRoles) : Prop :=
  [roles.SUPER_ADMIN, roles.ADMIN_PUSAT, roles.ADMIN_CABANG, roles.ADMIN_SHELTER,
    roles.DONATUR].Nodup

/-- The three text fields of the profile are non-blank after trimming. -/
def textFilled (f : FormState) : Prop :=
  jsTrim f.profileForm.namaLengkap ≠ "" ∧ jsTrim f.profileForm.alamat ≠ "" ∧
    jsTrim f.profileForm.noHp ≠ ""

/-- A form for an Admin Shelter with every required field filled. -/
def shelterForm : FormState :=
  { sampleForm with
    role := "admin_shelter"
    profileForm := { namaLengkap := " Siti ", alamat := "Jl. Melati 1", noHp := "0812" }
    selectedKacab := "3"
    selectedWilbin := "12"
    selectedShelter := "40" }

end SuperAdminUserFormScreen

/-! # Offline queue and recording authority

`utils/offlineSync.js`, the thunks of `attendanceSlice.js` and `tutorAttendanceSlice.js`
and the remote authority are not among the sources; the screen only calls them.  This
section models them from the specification (sections 3, 4.3, 4.4 and 4.6) and joins them
to the screen in `World`. -/

namespace OfflineSync

open QrScannerScreen

/-- Modelled from the spec: the `subjectId` of a record (section 3), as the client knows
it: a participant by `id_anak`, an instructor by the scanned token; the source of the
queue is missing. -/
inductive Subject where
  | participant (id_anak : Nat)
  | tutor (token : String)
  deriving DecidableEq, Repr

/-- Modelled from the spec: the pair (subjectId, activityId) on which duplicates are
decided (section 4.4); the source of the duplicate guard is missing. -/
structure RecordKey where
  subject : Subject
  id_aktivitas : Option Nat
  deriving DecidableEq, Repr

/-- The key of a record handed to the offline queue. -/
def keyOf : OfflinePayload → RecordKey
  | .participant p => { subject := .participant p.id_anak, id_aktivitas := p.id_aktivitas }
  | .tutor p => { subject := .tutor p.token, id_aktivitas := p.id_aktivitas }

/-- Modelled from the spec: the `syncState` of a record (section 3); the source of the
queue is missing. -/
inductive SyncState where
  | pending
  | synced
  | failed
  deriving DecidableEq, Repr

/-- Modelled from the spec: a `QueueEntry` (section 3), without `enqueuedAt`; the order of
the list of entries is the enqueue order. -/
structure QueueEntry where
  localId : Nat
  record : OfflinePayload
  method : String
  attemptCount : Nat
  lastError : Option String
  syncState : SyncState
  deriving DecidableEq, Repr

/-- Modelled from the spec: the local store of `OfflineSync` (section 4.6): the entries in
enqueue order, the keys of the records already synced (an entry is destroyed on confirmed
sync), and the next unused `localId`. -/
structure Queue where
  entries : List QueueEntry
  synced : List RecordKey
  nextLocalId : Nat
  deriving DecidableEq, Repr

/-- The queue of a fresh installation. -/
def Queue.empty : Queue := { entries := [], synced := [], nextLocalId := 0 }

/-- The keys of the Pending entries, in enqueue order. -/
def Queue.pendingKeys (q : Queue) : List RecordKey :=
  (q.entries.filter fun e => e.syncState = .pending).map fun e => keyOf e.record

/-- Modelled from the spec: the local half of the duplicate guard (sections 4.3 c, 4.4):
a Pending or Synced local entry exists for the pair. -/
def Queue.hasLive (q : Queue) (k : RecordKey) : Bool :=
  q.pendingKeys.contains k || q.synced.contains k

/-- Modelled from the spec: the `DuplicateError` (section 7) as the handlers see it, an
error flagged `isDuplicate`. -/
def duplicateError : JsError :=
  { isDuplicate := true, message := some "Attendance already recorded" }

/-- Modelled from the spec: `OfflineSync.processAttendance` (section 4.4, local half):
a record whose pair already has a Pending or Synced local entry is answered with the
duplicate error and creates no entry; any other record is appended as a Pending entry
with a fresh `localId`. -/
def processAttendance (q : Queue) (record : OfflinePayload) (method : String) :
    Queue × Settled Unit :=
  if q.hasLive (keyOf record) then (q, .rejected duplicateError)
  else
    ({ q with
       entries := q.entries ++
         [{ localId := q.nextLocalId, record := record, method := method,
            attemptCount := 0, lastError := none, syncState := .pending }]
       nextLocalId := q.nextLocalId + 1 },
     .fulfilled ())

/-- Modelled from the spec: the recording authority's ledger (section 4.4, remote half):
a submission that reaches the authority is answered with the duplicate error when the
ledger holds the pair, and is entered in the ledger otherwise.  `oracle` says whether the
request got through (`rejected` when it did not) and what the authority answers when it
accepts. -/
def authoritySubmit (ledger : List RecordKey) (k : RecordKey)
    (oracle : Settled RecordResult) : List RecordKey × Settled RecordResult :=
  match oracle with
  | .rejected e => (ledger, .rejected e)
  | .fulfilled r =>
    if ledger.contains k then (ledger, .rejected duplicateError)
    else (ledger ++ [k], .fulfilled r)

/-- The state of a replay pass: the entries kept so far, the keys synced so far, the
authority's ledger, and the submissions made, each as (localId, attempt number). -/
structure ReplayState where
  kept : List QueueEntry
  synced : List RecordKey
  ledger : List RecordKey
  trace : List (Nat × Nat)
  deriving DecidableEq, Repr

/-- Modelled from the spec: the replay of one Pending entry (section 4.6).  `verdict
localId attempt` is `some reason` when that attempt fails and `none` when it reaches the
authority.  `budget` is the number of attempts left.  A failed attempt is counted and its
reason captured; when the budget is used up the entry is kept, marked Failed.  An attempt
that reaches the authority ends the replay of the entry: the entry is destroyed and its
key noted as synced, the ledger taking the record unless it holds the pair already (the
authority's duplicate answer).  The waiting time between attempts is not modelled. -/
def replayEntry (verdict : Nat → Nat → Option String) (e : QueueEntry) :
    Nat → ReplayState → ReplayState
  | 0, st => { st with kept := st.kept ++ [{ e with syncState := .failed }] }
  | budget + 1, st =>
    match verdict e.localId e.attemptCount with
    | some reason =>
      replayEntry verdict
        { e with attemptCount := e.attemptCount + 1, lastError := some reason } budget
        { st with trace := st.trace ++ [(e.localId, e.attemptCount)] }
    | none =>
      { st with
        synced := st.synced ++ [keyOf e.record]
        ledger :=
          if st.ledger.contains (keyOf e.record) then st.ledger
          else st.ledger ++ [keyOf e.record]
        trace := st.trace ++ [(e.localId, e.attemptCount)] }

/-- Modelled from the spec: one replay pass over the entries in enqueue order (section
4.6); an entry that is not Pending is kept as it is. -/
def replayFrom (maxAttempts : Nat) (verdict : Nat → Nat → Option String) :
    List QueueEntry → ReplayState → ReplayState
  | [], st => st
  | e :: rest, st =>
    if e.syncState = .pending then
      replayFrom maxAttempts verdict rest
        (replayEntry verdict e (maxAttempts - e.attemptCount) st)
    else replayFrom maxAttempts verdict rest { st with kept := st.kept ++ [e] }

/-- Modelled from the spec: a replay pass of the whole queue against the ledger. -/
def replayPass (maxAttempts : Nat) (verdict : Nat → Nat → Option String) (q : Queue)
    (ledger : List RecordKey) : ReplayState :=
  replayFrom maxAttempts verdict q.entries
    { kept := [], synced := q.synced, ledger := ledger, trace := [] }

/-- The submissions one entry makes in a pass: they depend on the verdicts alone. -/
def attemptsOf (verdict : Nat → Nat → Option String) (e : QueueEntry) :
    Nat → List (Nat × Nat)
  | 0 => []
  | budget + 1 =>
    match verdict e.localId e.attemptCount with
    | some reason =>
      (e.localId, e.attemptCount) ::
        attemptsOf verdict
          { e with attemptCount := e.attemptCount + 1, lastError := some reason } budget
    | none => [(e.localId, e.attemptCount)]

/-- Modelled from the spec: the screen together with the local queue and the authority's
ledger (section 2); the sources of the queue and of the thunks are missing. -/
structure World where
  screen : Screen
  queue : Queue
  ledger : List RecordKey
  deriving DecidableEq, Repr

/-- The outcomes awaited by the recording a screen event may start. -/
def recordEnvOf : Event → Option RecordEnv
  | .scan _ env => some env.tutor
  | .storeValidationResult _ env => some env
  | .kelompokStudents _ env => some env
  | _ => none

/-- The same event with the settlement of its recording operation fixed. -/
def withOutcome (ev : Event) (o : Settled RecordResult) : Event :=
  let fix (env : RecordEnv) : RecordEnv :=
    { env with
      submit := o
      offline :=
        match o with
        | .fulfilled _ => .fulfilled ()
        | .rejected e => .rejected e }
  match ev with
  | .scan qrData env => .scan qrData { env with tutor := fix env.tutor }
  | .storeValidationResult result env => .storeValidationResult result (fix env)
  | .kelompokStudents ids env => .kelompokStudents ids (fix env)
  | ev => ev

/-- Modelled from the spec: what a recording operation of the screen does to the queue and
the ledger, and how it settles (section 4.3 d and f); the thunks `recordAttendanceByQr`
and `recordTutorAttendanceByQr` are missing and are taken to submit to the authority.
`env` holds what the environment decides: whether a submission gets through and what the
authority answers, and whether the local store accepts a write. -/
def commit (w : World) (env : RecordEnv) : Effect → World × Settled RecordResult
  | .dispatchRecordAttendanceByQr p =>
    let r := authoritySubmit w.ledger
      { subject := .participant p.id_anak, id_aktivitas := p.id_aktivitas } env.submit
    ({ w with ledger := r.1 }, r.2)
  | .dispatchRecordTutorAttendanceByQr p =>
    let r := authoritySubmit w.ledger
      { subject := .tutor p.token, id_aktivitas := p.id_aktivitas } env.submit
    ({ w with ledger := r.1 }, r.2)
  | .offlineProcessAttendance p method =>
    match env.offline with
    | .rejected e => (w, .rejected e)
    | .fulfilled _ =>
      let r := processAttendance w.queue p method
      ({ w with queue := r.1 },
       match r.2 with
       | .fulfilled _ => .fulfilled { data := none }
       | .rejected e => .rejected e)
  | _ => (w, env.submit)

/-- A screen event in the world.  The recording operation the event starts, if any, is
found in the trace of the event (it does not depend on how the operation settles); the
queue or the ledger settles it, and the screen runs the event with that settlement. -/
def uiStep (w : World) (ev : Event) : World × List Effect :=
  match (step w.screen ev).2.find? Effect.isRecording, recordEnvOf ev with
  | some op, some env =>
    let c := commit w env op
    let r := step w.screen (withOutcome ev c.2)
    ({ c.1 with screen := r.1 }, r.2)
  | _, _ => ({ w with screen := (step w.screen ev).1 }, (step w.screen ev).2)

/-- What can happen in the world: a screen event, or a replay pass of the queue with at
most `maxAttempts` attempts an entry. -/
inductive WorldEvent where
  | ui (ev : Event)
  | replay (maxAttempts : Nat) (verdict : Nat → Nat → Option String)

/-- One event of the world. -/
def worldStep (w : World) : WorldEvent → World × List Effect
  | .ui ev => uiStep w ev
  | .replay maxAttempts verdict =>
    let r := replayPass maxAttempts verdict w.queue w.ledger
    ({ w with
       queue := { w.queue with entries := r.kept, synced := r.synced }
       ledger := r.ledger }, [])

/-- A sequence of events of the world, with the screen's effects in order. -/
def worldRun (w : World) : List WorldEvent → World × List Effect
  | [] => (w, [])
  | ev :: rest =>
    let r1 := worldStep w ev
    let r2 := worldRun r1.1 rest
    (r2.1, r1.2 ++ r2.2)

/-- At most one record for a pair in the ledger, and at most one Pending entry for a pair
in the queue. -/
def World.wellFormed (w : World) : Prop :=
  w.ledger.Nodup ∧ w.queue.pendingKeys.Nodup

/-- The world of a fresh installation with the given screen. -/
def World.initial (screen : Screen) : World :=
  { screen := screen, queue := Queue.empty, ledger := [] }

/-! ## Sample inputs -/

/-- A connectivity notification reporting a working connection. -/
def onlineNotice : NetInfoState :=
  { isConnected := some true, isInternetReachable := some true }

/-- The pair of participant 1 and activity 7. -/
def sampleKey : RecordKey := { subject := .participant 1, id_aktivitas := some 7 }

/-- The validated scan of participant 1, as a world event. -/
def validatedScan : WorldEvent :=
  .ui (.storeValidationResult (some sampleValidation) sampleRecordEnv)

/-- Participant 1 is scanned while the monitor reports offline, then the monitor reports
online. -/
def offlineThenOnline : List WorldEvent :=
  [.ui (.netInfo offlineNotice), validatedScan, .ui (.netInfo onlineNotice)]

/-- The world after participant 1 was scanned while the monitor reported offline. -/
def queuedWorld : World :=
  (worldRun (World.initial undatedScreen) [.ui (.netInfo offlineNotice), validatedScan]).1

/-- A Pending entry with the given `localId` for the given participant of activity 7. -/
def sampleEntry (localId id_anak : Nat) : QueueEntry :=
  { localId := localId
    record := .participant
      { id_anak := id_anak, id_aktivitas := some 7, status := none, token := "T",
        arrival_time := "2024-01-10 08:30:00" }
    method := "qr"
    attemptCount := 0
    lastError := none
    syncState := .pending }

/-- Three Pending entries, for participants 1, 2 and 3, enqueued in that order. -/
def sampleQueue : Queue :=
  { entries := [sampleEntry 0 1, sampleEntry 1 2, sampleEntry 2 3]
    synced := []
    nextLocalId := 3 }

/-- Every attempt of the entry with `localId` 0 fails; every other attempt gets through. -/
def failsZero (localId _attempt : Nat) : Option String :=
  if localId = 0 then some "token expired" else none

end OfflineSync

/-! # Family form

Embedding of the step navigation of
`src/features/adminShelter/screens/KeluargaFormScreen.js`: the cells `currentStep`,
`formData` and `stepsValid`, and the functions that read and write them. -/

namespace KeluargaFormScreen

/-- `STEPS.FAMILY` (lines 40-52). -/
def FAMILY : Nat := 0

/-- `STEPS.PARENTS`. -/
def PARENTS : Nat := 1

/-- `STEPS.GUARDIAN`. -/
def GUARDIAN : Nat := 2

/-- `STEPS.CHILD`. -/
def CHILD : Nat := 3

/-- `STEPS.EDUCATION`. -/
def EDUCATION : Nat := 4

/-- `STEPS.SURVEY_BASIC`. -/
def SURVEY_BASIC : Nat := 5

/-- `STEPS.SURVEY_FINANCIAL`. -/
def SURVEY_FINANCIAL : Nat := 6

/-- `STEPS.SURVEY_ASSETS`. -/
def SURVEY_ASSETS : Nat := 7

/-- `STEPS.SURVEY_HEALTH`. -/
def SURVEY_HEALTH : Nat := 8

/-- `STEPS.SURVEY_RELIGIOUS`. -/
def SURVEY_RELIGIOUS : Nat := 9

/-- `STEPS.REVIEW`. -/
def REVIEW : Nat := 10

/-- The fields of `formData` (lines 55-170) that `validateStep` and the navigation read;
they hold strings. -/
structure FormData where
  no_kk : String
  kepala_keluarga : String
  status_ortu : String
  nama_ayah : String
  nik_ayah : String
  nama_ibu : String
  nik_ibu : String
  nama_wali : String
  nik_wali : String
  hub_kerabat_wali : String
  nik_anak : String
  anak_ke : String
  dari_bersaudara : String
  nick_name : String
  full_name : String
  agama : String
  tempat_lahir : String
  tanggal_lahir : String
  jenis_kelamin : String
  tinggal_bersama : String
  jenjang : String
  pekerjaan_kepala_keluarga : String
  pendidikan_kepala_keluarga : String
  jumlah_tanggungan : String
  status_anak : String
  penghasilan : String
  kepemilikan_tabungan : String
  biaya_pendidikan_perbulan : String
  bantuan_lembaga_formal_lain : String
  kepemilikan_tanah : String
  kepemilikan_rumah : String
  kondisi_rumah_dinding : String
  kondisi_rumah_lantai : String
  kepemilikan_kendaraan : String
  kepemilikan_elektronik : String
  jumlah_makan : String
  sumber_air_bersih : String
  jamban_limbah : String
  tempat_sampah : String
  perokok : String
  konsumen_miras : String
  persediaan_p3k : String
  makan_buah_sayur : String
  solat_lima_waktu : String
  membaca_alquran : String
  majelis_taklim : String
  membaca_koran : String
  pengurus_organisasi : String
  kondisi_penerima_manfaat : String
  deriving DecidableEq, Repr

/-- The form data of a new family (lines 55-170): every field read here is empty. -/
def emptyFormData : FormData :=
  { no_kk := ""
    kepala_keluarga := ""
    status_ortu := ""
    nama_ayah := ""
    nik_ayah := ""
    nama_ibu := ""
    nik_ibu := ""
    nama_wali := ""
    nik_wali := ""
    hub_kerabat_wali := ""
    nik_anak := ""
    anak_ke := ""
    dari_bersaudara := ""
    nick_name := ""
    full_name := ""
    agama := ""
    tempat_lahir := ""
    tanggal_lahir := ""
    jenis_kelamin := ""
    tinggal_bersama := ""
    jenjang := ""
    pekerjaan_kepala_keluarga := ""
    pendidikan_kepala_keluarga := ""
    jumlah_tanggungan := ""
    status_anak := ""
    penghasilan := ""
    kepemilikan_tabungan := ""
    biaya_pendidikan_perbulan := ""
    bantuan_lembaga_formal_lain := ""
    kepemilikan_tanah := ""
    kepemilikan_rumah := ""
    kondisi_rumah_dinding := ""
    kondisi_rumah_lantai := ""
    kepemilikan_kendaraan := ""
    kepemilikan_elektronik := ""
    jumlah_makan := ""
    sumber_air_bersih := ""
    jamban_limbah := ""
    tempat_sampah := ""
    perokok := ""
    konsumen_miras := ""
    persediaan_p3k := ""
    makan_buah_sayur := ""
    solat_lima_waktu := ""
    membaca_alquran := ""
    majelis_taklim := ""
    membaca_koran := ""
    pengurus_organisasi := ""
    kondisi_penerima_manfaat := "" }

/-- Truthiness of a field: the empty string is falsy. -/
def filled (value : String) : Bool := decide (value ≠ "")

/-- Lines 389-486, as the truthiness of the value returned.  The length of a string is
counted in characters. -/
def validateStep (step : Nat) (data : FormData) : Bool :=
  match step with
  | 0 =>
    filled data.no_kk && decide (data.no_kk.length = 16) && filled data.kepala_keluarga
      && filled data.status_ortu
  | 1 =>
    if data.status_ortu = "yatim piatu" then true
    else
      (filled data.nama_ayah && filled data.nik_ayah && decide (data.nik_ayah.length = 16))
        || (filled data.nama_ibu && filled data.nik_ibu && decide (data.nik_ibu.length = 16))
  | 2 =>
    if data.status_ortu = "yatim piatu" then
      filled data.nama_wali && filled data.nik_wali && decide (data.nik_wali.length = 16)
        && filled data.hub_kerabat_wali
    else true
  | 3 =>
    filled data.nik_anak && decide (data.nik_anak.length = 16) && filled data.anak_ke
      && filled data.dari_bersaudara && filled data.nick_name && filled data.full_name
      && filled data.agama && filled data.tempat_lahir && filled data.tanggal_lahir
      && filled data.jenis_kelamin && filled data.tinggal_bersama
  | 4 => filled data.jenjang
  | 5 =>
    filled data.pekerjaan_kepala_keluarga && filled data.pendidikan_kepala_keluarga && filled data.jumlah_tanggungan
      && filled data.status_anak
  | 6 =>
    filled data.penghasilan && filled data.kepemilikan_tabungan && filled data.biaya_pendidikan_perbulan
      && filled data.bantuan_lembaga_formal_lain
  | 7 =>
    filled data.kepemilikan_tanah && filled data.kepemilikan_rumah && filled data.kondisi_rumah_dinding
      && filled data.kondisi_rumah_lantai && filled data.kepemilikan_kendaraan && filled data.kepemilikan_elektronik
  | 8 =>
    filled data.jumlah_makan && filled data.sumber_air_bersih && filled data.jamban_limbah
      && filled data.tempat_sampah && filled data.perokok && filled data.konsumen_miras
      && filled data.persediaan_p3k && filled data.makan_buah_sayur
  | 9 =>
    filled data.solat_lima_waktu && filled data.membaca_alquran && filled data.majelis_taklim
      && filled data.membaca_koran && filled data.pengurus_organisasi && filled data.kondisi_penerima_manfaat
  | 10 => true
  | _ => false

/-- The cell `stepsValid`: the entries of the object, keys with the truthiness of their
values. -/
abbrev StepsValid := List (Nat × Bool)

/-- Lines 173-185: the initial value of `stepsValid`. -/
def initialStepsValid : StepsValid :=
  [(FAMILY, false), (PARENTS, false), (GUARDIAN, true), (CHILD, false), (EDUCATION, false),
   (SURVEY_BASIC, false), (SURVEY_FINANCIAL, false), (SURVEY_ASSETS, false),
   (SURVEY_HEALTH, false), (SURVEY_RELIGIOUS, false), (REVIEW, true)]

/-- The updater of lines 488-490, `prev => ({ ...prev, [step]: isValid })`. -/
def updateStepValidity (stepsValid : StepsValid) (step : Nat) (isValid : Bool) :
    StepsValid :=
  if stepsValid.any (fun e => e.1 = step) then
    stepsValid.map fun e => if e.1 = step then (step, isValid) else e
  else stepsValid ++ [(step, isValid)]

/-- Truthiness of `stepsValid[step]`. -/
def isValidStep (stepsValid : StepsValid) (step : Nat) : Bool :=
  match stepsValid.find? (fun e => e.1 = step) with
  | some e => e.2
  | none => false

/-- The three cells of the component that the navigation reads and writes. -/
structure FormState where
  currentStep : Nat
  formData : FormData
  stepsValid : StepsValid
  deriving DecidableEq, Repr

/-- The alert of lines 503-506. -/
inductive FormEffect where
  | alert (title message : String)
  deriving DecidableEq, Repr

/-- Lines 492-508. -/
def goToNextStep (f : FormState) : FormState × List FormEffect :=
  let isCurrentStepValid := validateStep f.currentStep f.formData
  let f1 := { f with
    stepsValid := updateStepValidity f.stepsValid f.currentStep isCurrentStepValid }
  if isCurrentStepValid then
    if f.currentStep = FAMILY && f.formData.status_ortu = "yatim piatu" then
      ({ f1 with currentStep := GUARDIAN }, [])
    else ({ f1 with currentStep := f.currentStep + 1 }, [])
  else
    (f1, [.alert "Kesalahan Validasi"
      "Mohon lengkapi semua kolom yang wajib diisi sebelum melanjutkan."])

/-- Lines 510-516; `Math.max(0, prev - 1)` is the truncated subtraction. -/
def goToPreviousStep (f : FormState) : FormState :=
  if f.currentStep = GUARDIAN && f.formData.status_ortu = "yatim piatu" then
    { f with currentStep := FAMILY }
  else { f with currentStep := f.currentStep - 1 }

/-- Lines 519-521: the highest key with a truthy value, -1 when there is none. -/
def highestCompletedStep (stepsValid : StepsValid) : Int :=
  (stepsValid.filter fun e => e.2).foldl (fun highest e => max highest (e.1 : Int)) (-1)

/-- Lines 518-526. -/
def goToStep (f : FormState) (step : Nat) : FormState :=
  if (step : Int) ≤ highestCompletedStep f.stepsValid + 1 then { f with currentStep := step }
  else f

/-- Lines 354-365: the update of `stepsValid` when the details of an existing family have
been loaded; the three flags say whether the child, education and survey objects have
keys. -/
def loadedStepsValid (stepsValid : StepsValid) (child education survey : Bool) :
    StepsValid :=
  [(FAMILY, true), (PARENTS, true), (CHILD, child), (EDUCATION, education),
   (SURVEY_BASIC, survey), (SURVEY_FINANCIAL, survey), (SURVEY_ASSETS, survey),
   (SURVEY_HEALTH, survey), (SURVEY_RELIGIOUS, survey)].foldl
    (fun sv e => updateStepValidity sv e.1 e.2) stepsValid

/-- What can happen to the form: a field is edited (`handleChange`, seen as a new value
of `formData`), one of the three navigation functions is called, a step component calls
its `setStepValid` (lines 619-710: the steps 0 to 9, never REVIEW), or the details of an
existing family arrive (lines 352-365). -/
inductive FormEvent where
  | handleChange (data : FormData)
  | goToNextStep
  | goToPreviousStep
  | goToStep (step : Nat)
  | setStepValid (step : Fin 10) (isValid : Bool)
  | detailsLoaded (data : FormData) (child education survey : Bool)
  deriving DecidableEq, Repr

/-- One event of the form. -/
def formStep (f : FormState) : FormEvent → FormState
  | .handleChange data => { f with formData := data }
  | .goToNextStep => (goToNextStep f).1
  | .goToPreviousStep => goToPreviousStep f
  | .goToStep step => goToStep f step
  | .setStepValid step isValid =>
    { f with stepsValid := updateStepValidity f.stepsValid step.val isValid }
  | .detailsLoaded data child education survey =>
    { f with
      formData := data
      stepsValid := loadedStepsValid f.stepsValid child education survey }

/-- A sequence of events of the form. -/
def formRun (f : FormState) : List FormEvent → FormState
  | [] => f
  | ev :: rest => formRun (formStep f ev) rest

/-- The state of the first render with the given form data (lines 54-185). -/
def initialState (data : FormData) : FormState :=
  { currentStep := FAMILY, formData := data, stepsValid := initialStepsValid }

/-- REVIEW is marked valid and no step above REVIEW is. -/
def reviewOpen (stepsValid : StepsValid) : Prop :=
  (REVIEW, true) ∈ stepsValid ∧
    ∀ e ∈ stepsValid, (e.2 = true → e.1 ≤ REVIEW) ∧ (e.1 = REVIEW → e.2 = true)

/-- Form data of an orphan's family with the family step filled. -/
def orphanData : FormData :=
  { emptyFormData with
    no_kk := "3201010101010001"
    kepala_keluarga := "Budi"
    status_ortu := "yatim piatu" }

end KeluargaFormScreen

/-! # Root reducer

Embedding of `src/redux/rootReducer.js`. -/

namespace RootReducer

/-- A Redux action: its `type` and whatever else it carries. -/
structure Action (π : Type) where
  type : String
  payload : π

/-- Lines 64-70.  `appReducer` is the combination of the slice reducers (lines 33-62),
whose sources are missing: it is a parameter.  A state of `none` is `undefined`. -/
def rootReducer {σ π : Type} (appReducer : Option σ → Action π → σ) (state : Option σ)
    (action : Action π) : σ :=
  if action.type = "auth/logout/fulfilled" then appReducer none action
  else appReducer state action

/-- A sample combined reducer over a counter: it starts at 0 and counts the actions of
type 'tick'. -/
def counterReducer (state : Option Nat) (action : Action Unit) : Nat :=
  if action.type = "tick" then state.getD 0 + 1 else state.getD 0

end RootReducer

/-! # The scanner between renders

`handleScan` is `useCallback(…, [id_aktivitas, isProcessing, activityDateStatus])` (lines
231-259): a call of `onScan` runs the function of the last render and reads the values
that render closed over, while `setIsProcessing` changes the cell and only the next render
sees the change.  `Live` keeps the cells and the rendered values apart, and keeps the
dialogs, probes, timers and recordings that are pending, so that an event may arrive
between a state change and the render that follows it, while a dialog is open, and while
a request is in flight.  `handleScan` and `run` above are the case in which nothing
arrives in between. -/

namespace QrScannerScreen

/-- A mounted screen between renders: the current values of the state cells, the values
the last render closed over, the open 'Past Activity' dialogs (oldest first), the calls of
`proceedWithScan` that await the instructor probe (line 265), the number of armed 1000 ms
timers (lines 280-282), and the instructor recordings that await the settlement of their
request, each with the effects it performs once the request settles. -/
structure Live where
  cells : Screen
  rendered : Screen
  dialogs : List QrData
  probes : List QrData
  timers : Nat
  recordings : List (List Effect)
  deriving DecidableEq, Repr

/-- A screen at rest: rendered with its current cells, nothing pending. -/
def Live.ofScreen (s : Screen) : Live :=
  { cells := s, rendered := s, dialogs := [], probes := [], timers := 0, recordings := [] }

/-- Lines 261-265, up to the `await`: `setIsProcessing(true)` changes the cell, and the
probe request is sent. -/
def Live.proceedWithScan (l : Live) (qrData : QrData) : Live × List Effect :=
  ({ l with
     cells := { l.cells with isProcessing := true }
     probes := l.probes ++ [qrData] },
   [.validateTutorToken qrData.token])

/-- Lines 231-259, as the last render made it: the guard and the branches read
`id_aktivitas`, `isProcessing` and `activityDateStatus` of that render.  The dialog of
lines 247-254 is opened and left open. -/
def Live.handleScan (l : Live) (qrData : QrData) : Live × List Effect :=
  if !truthyId l.rendered.id_aktivitas || l.rendered.isProcessing then (l, [])
  else if !truthyId l.rendered.id_aktivitas then
    (l, [.alert "Error"
      "No activity selected. Please go back and select an activity first." []])
  else if l.rendered.activityDateStatus = .future then
    (l, [.alert "Activity Not Started"
      "This activity has not started yet. Please wait until the activity date." []])
  else if l.rendered.activityDateStatus = .past then
    ({ l with dialogs := l.dialogs ++ [qrData] },
     [.alert "Past Activity"
       "This activity was in the past. Attendance will be marked as absent."
       (pastActivityButtons qrData)])
  else Live.proceedWithScan l qrData

/-- The user answers the open dialog number `dialog` by pressing the button number
`button` (`none`: the dialog is dismissed); the handler of the button runs, if it has one
(line 252). -/
def Live.press (l : Live) (dialog : Nat) (button : Option Nat) : Live × List Effect :=
  match l.dialogs.get? dialog with
  | none => (l, [])
  | some qrData =>
    let l1 := { l with dialogs := l.dialogs.eraseIdx dialog }
    match button with
    | none => (l1, [])
    | some i =>
      match (pastActivityButtons qrData).get? i with
      | some b =>
        match b.onPress with
        | some q => Live.proceedWithScan l1 q
        | none => (l1, [])
      | none => (l1, [])

/-- Lines 265-283, from the return of the awaited probe on: the branch (the body of the
100 ms timer) and the arming of the 1000 ms timer.  An instructor recording sends its
request and then awaits it: the first effect of the handler is performed here and the
rest is kept in `recordings`. -/
def Live.probeSettled (l : Live) (index : Nat) (probe : ProbeOutcome) (env : RecordEnv) :
    Live × List Effect :=
  match l.probes.get? index with
  | none => (l, [])
  | some qrData =>
    let l1 := { l with probes := l.probes.eraseIdx index, timers := l.timers + 1 }
    match (validateIfTutorToken qrData.token probe).2 with
    | .ok isTutorToken =>
      if isTutorToken then
        let trace :=
          handleTutorAttendanceRecording firstRenderIsConnected l.cells.id_aktivitas env
            qrData.token
        ({ l1 with recordings := l1.recordings ++ [trace.drop 1] }, trace.take 1)
      else (l1, [.dispatchValidateToken qrData.token])
    | .error _ => (l1, [.dispatchValidateToken qrData.token])

/-- What can happen to a mounted screen between renders. -/
inductive LiveEvent where
  | scan (qrData : QrData)
  | render
  | press (dialog : Nat) (button : Option Nat)
  | probeSettled (index : Nat) (probe : ProbeOutcome) (env : RecordEnv)
  | timer
  | recordingSettled (index : Nat)
  deriving DecidableEq, Repr

/-- One event: `scan` is the scanner calling `onScan` (line 464), which is the
`handleScan` of the last render; `render` is React rendering with the current cells;
`press` is the user answering an open dialog; `probeSettled` is the probe of line 265
returning; `timer` is an armed timer of lines 280-282 firing, `setIsProcessing(false)`;
`recordingSettled` is the request of an instructor recording settling. -/
def Live.step (l : Live) : LiveEvent → Live × List Effect
  | .scan qrData => Live.handleScan l qrData
  | .render => ({ l with rendered := l.cells }, [])
  | .press dialog button => Live.press l dialog button
  | .probeSettled index probe env => Live.probeSettled l index probe env
  | .timer =>
    match l.timers with
    | 0 => (l, [])
    | n + 1 => ({ l with cells := { l.cells with isProcessing := false }, timers := n }, [])
  | .recordingSettled index =>
    match l.recordings.get? index with
    | none => (l, [])
    | some rest => ({ l with recordings := l.recordings.eraseIdx index }, rest)

/-- A sequence of events between renders, with the effects performed, in order. -/
def Live.run (l : Live) : List LiveEvent → Live × List Effect
  | [] => (l, [])
  | ev :: rest =>
    let r1 := Live.step l ev
    let r2 := Live.run r1.1 rest
    (r2.1, r1.2 ++ r2.2)

/-- The scans in process: those whose probe is awaited and those whose recording is
awaited. -/
def Live.inProcess (l : Live) : Nat := l.probes.length + l.recordings.length

/-- The event is a call of `onScan`. -/
def LiveEvent.isScan : LiveEvent → Bool
  | .scan _ => true
  | _ => false

/-- The event is the firing of a 1000 ms timer. -/
def LiveEvent.isTimer : LiveEvent → Bool
  | .timer => true
  | _ => false

/-- A second scanned code. -/
def secondQr : QrData := { token := "T2" }

/-! ## Date-only activity dates -/

/-- The time value of `new Date('YYYY-MM-DD')`: a date-only string is read as midnight
UTC of the written day, `day` being that day counted from the epoch. -/
def dateOnlyTime (day : Int) : Int := day * msPerDay

/-- The written day 2024-01-10, counted from the epoch. -/
def sampleWrittenDay : Int := 19732

/-- A zone five hours behind UTC, in milliseconds. -/
def westZone : Int := -18000000

/-- The instant 2024-01-09 23:00 in the zone five hours behind UTC. -/
def westEvening : Int := 1704859200000

end QrScannerScreen

namespace OfflineSync

open QrScannerScreen

/-! ## Status derivation -/

/-- Modelled from the spec: the `derivedStatus` of an attendance record (section 3); the
client sends `status: null` and the source of the derivation is missing. -/
inductive DerivedStatus where
  | onTime
  | late
  | absent
  deriving DecidableEq, Repr

/-- Modelled from the spec: the status derived for a record of an activity scheduled at
`scheduled` with late threshold `threshold`, arriving at `arrival` (sections 4.1, 4.3 d
and 8): Absent when the scheduled day is before the day of arrival; otherwise OnTime when
the arrival is at or before the threshold and Late when it is after.  No status is
derived for an activity of a later day, whose scans are blocked.  The source of the
derivation is missing. -/
def derivedStatus (tz scheduled threshold arrival : Int) : DerivedStatus :=
  if localDay tz scheduled < localDay tz arrival then .absent
  else if arrival ≤ threshold then .onTime
  else .late

/-- Modelled from the spec: the `absen` value of the answer for a derived status.  'Tidak'
and 'Terlambat' are the two values the handlers test for (lines 317, 320, 373, 376); every
other value reads as Present, and 'Ya' is taken for OnTime. -/
def absenOf : DerivedStatus → String
  | .onTime => "Ya"
  | .late => "Terlambat"
  | .absent => "Tidak"

/-- Modelled from the spec: a submission that gets through and is accepted, answered with
the status derived from the schedule of the activity and the arrival instant, `formatted`
being the formatted arrival time the record carries. -/
def authorityEnv (tz scheduled threshold arrival : Int) (formatted : String) : RecordEnv :=
  answerEnv formatted (some (absenOf (derivedStatus tz scheduled threshold arrival)))

/-- The late threshold of the sample activity: 2024-01-10 09:00 in the sample zone. -/
def sampleThreshold : Int := 1704852000000

/-- The instant 2024-01-10 09:30 in the sample zone. -/
def sampleLateArrival : Int := 1704853800000

/-- Every replay attempt reaches the authority. -/
def getsThrough (_localId _attempt : Nat) : Option String := none

end OfflineSync

namespace QrScannerScreen

/-! ## Lemmas on the schedule gate -/

/-- Local midnight of the day of `t` is not after `t`, and less than a day before it. -/
theorem startOfDay_bounds (tz t : Int) :
    localDay tz t * msPerDay - tz ≤ t ∧ t < localDay tz t * msPerDay - tz + msPerDay := by
  unfold localDay msPerDay
  omega

/-- For a valid activity date on the same local day as `now`, the gate answers `past`,
except at the single instant of local midnight, where it answers `valid`. -/
theorem validateActivityDate_same_day (tz t now : Int)
    (h : localDay tz t = localDay tz now) :
    validateActivityDate tz (.date (some t)) now
      = if now = localDay tz now * msPerDay - tz then .valid else .past := by
  have hb := startOfDay_bounds tz now
  simp only [validateActivityDate, startOfDay, isFuture, isPast, h]
  by_cases hn : now = localDay tz now * msPerDay - tz
  · rw [if_pos hn]
    have h1 : ¬ (now < localDay tz now * msPerDay - tz) := by omega
    have h2 : ¬ (localDay tz now * msPerDay - tz < now) := by omega
    simp [h1, h2]
  · rw [if_neg hn]
    have h1 : ¬ (now < localDay tz now * msPerDay - tz) := by omega
    have h2 : localDay tz now * msPerDay - tz < now := by omega
    simp [h1, h2]

/-! ## Lemmas on the handlers -/

/-- The catch block performs no scan processing. -/
theorem recordingCatch_processesScan (fallback : String) (error : JsError) :
    ∀ e ∈ recordingCatch fallback error, e.processesScan = false := by
  intro e he
  unfold recordingCatch at he
  split at he
  · simp at he
    subst he
    rfl
  · simp at he

/-- The participant handler hands a record to the queue exactly when it sees offline. -/
theorem handleAttendanceRecording_enqueue (c : Bool) (id : Option Nat)
    (vr : Option ValidationResult) (env : RecordEnv) (token : String) (id_anak : Nat) :
    (handleAttendanceRecording c id vr env token id_anak).any Effect.isEnqueue = !c := by
  cases c <;> rcases env with ⟨t, sub, off⟩ <;> rcases sub with _ | ⟨d, m⟩ <;>
    rcases off with _ | ⟨d2, m2⟩ <;> try cases d <;> try cases d2
  all_goals simp [handleAttendanceRecording, recordingCatch, Effect.isEnqueue]

/-- The instructor handler hands a record to the queue exactly when it sees offline. -/
theorem handleTutorAttendanceRecording_enqueue (c : Bool) (id : Option Nat)
    (env : RecordEnv) (token : String) :
    (handleTutorAttendanceRecording c id env token).any Effect.isEnqueue = !c := by
  cases c <;> rcases env with ⟨t, sub, off⟩ <;> rcases sub with _ | ⟨d, m⟩ <;>
    rcases off with _ | ⟨d2, m2⟩ <;> try cases d <;> try cases d2
  all_goals simp [handleTutorAttendanceRecording, recordingCatch, Effect.isEnqueue]

/-- The instructor handler performs no probe and dispatches no token validation. -/
theorem handleTutorAttendanceRecording_no_validation (c : Bool) (id : Option Nat)
    (env : RecordEnv) (token : String) :
    ∀ e ∈ handleTutorAttendanceRecording c id env token,
      e.isProbe = false ∧ e.isValidationDispatch = false := by
  have hall : (handleTutorAttendanceRecording c id env token).all
      (fun e => !e.isProbe && !e.isValidationDispatch) = true := by
    cases c <;> rcases env with ⟨t, sub, off⟩ <;> rcases sub with _ | ⟨d, m⟩ <;>
      rcases off with _ | ⟨d2, m2⟩ <;> try cases d <;> try cases d2
    all_goals
      simp [handleTutorAttendanceRecording, recordingCatch, Effect.isProbe,
        Effect.isValidationDispatch]
  intro e he
  have := List.all_eq_true.mp hall e he
  simpa using this

/-- With the gate closed by `future`, `handleScan` leaves the state alone and performs at
most the blocking alert. -/
theorem handleScan_future (s : Screen) (env : ScanEnv) (qrData : QrData)
    (h : s.activityDateStatus = .future) :
    (handleScan s env qrData).1 = s ∧
      ∀ e ∈ (handleScan s env qrData).2, e.processesScan = false := by
  unfold handleScan
  cases hi : truthyId s.id_aktivitas <;> cases hp : s.isProcessing <;>
    simp [h, Effect.processesScan, Effect.isProbe, Effect.isValidationDispatch,
      Effect.isRecording, Effect.isSubmission, Effect.isEnqueue]

/-- In a Future state whose store holds no validation result, an event other than a store
change keeps both facts and processes no scan. -/
theorem step_future (s : Screen) (ev : Event) (hf : s.activityDateStatus = .future)
    (hv : s.validationResult = none) (hev : ev.isStoreResult = false) :
    (step s ev).1.activityDateStatus = .future ∧ (step s ev).1.validationResult = none ∧
      ∀ e ∈ (step s ev).2, e.processesScan = false := by
  cases ev with
  | scan qrData env =>
    have hs := handleScan_future s env qrData hf
    simp only [step]
    rw [hs.1]
    exact ⟨hf, hv, hs.2⟩
  | processingTimeout => simp [step, hf, hv]
  | netInfo state => simp [step, hf, hv]
  | storeValidationResult result env => simp [Event.isStoreResult] at hev
  | kelompokStudents ids env => simp [step, hf, hv, validationEffect]

/-- Every participant record the handler submits or queues carries status null. -/
theorem handleAttendanceRecording_status_null (c : Bool) (id : Option Nat)
    (vr : Option ValidationResult) (env : RecordEnv) (token : String) (id_anak : Nat)
    (p : AttendancePayload)
    (hp : Effect.dispatchRecordAttendanceByQr p
          ∈ handleAttendanceRecording c id vr env token id_anak ∨
        Effect.offlineProcessAttendance (.participant p) "qr"
          ∈ handleAttendanceRecording c id vr env token id_anak) :
    p.status = none := by
  cases c <;> rcases env with ⟨t, sub, off⟩ <;> rcases sub with _ | ⟨d, m⟩ <;>
    rcases off with _ | ⟨d2, m2⟩ <;> try cases d <;> try cases d2
  all_goals
    simp [handleAttendanceRecording, recordingCatch] at hp
    try (subst hp; rfl)

/-- Whatever the state, a scan that reaches `proceedWithScan` hands nothing to the offline
queue: the instructor handler it calls sees the first render's `isConnected`. -/
theorem proceedWithScan_never_enqueues (s : Screen) (env : ScanEnv) (qrData : QrData) :
    (proceedWithScan s env qrData).2.any Effect.isEnqueue = false := by
  rcases env with ⟨pressed, probe, t, sub, off⟩
  rcases probe with ⟨_ | _⟩ | _ | e <;> rcases sub with _ | ⟨_ | _, m⟩ <;>
    simp [proceedWithScan, validateIfTutorToken, handleTutorAttendanceRecording,
      firstRenderIsConnected, recordingCatch, Effect.isEnqueue]

/-! ## Claims -/

/-- C1, counterexample.  Online, the submission of participant 1 and of an instructor is
rejected with a network error: neither handler hands the record to the offline queue, and
both show the error to the user. -/
theorem online_network_error_example :
    (handleAttendanceRecording true (some 7) none networkErrorEnv "T1" 1).any
        Effect.isEnqueue = false ∧
      Effect.showToast "Network Error" .error
        ∈ handleAttendanceRecording true (some 7) none networkErrorEnv "T1" 1 ∧
      (handleTutorAttendanceRecording true (some 7) networkErrorEnv "T1").any
        Effect.isEnqueue = false ∧
      Effect.showToast "Network Error" .error
        ∈ handleTutorAttendanceRecording true (some 7) networkErrorEnv "T1" := by
  decide

/-- C1, as amended.  When a handler sees online and the submission is rejected, all it
does after the submission is to show the error (its message, or the handler's default
text) as an error toast, unless the error is flagged as a duplicate; a handler hands a
record to the offline queue exactly when the connectivity value it sees is offline. -/
theorem online_rejection_is_surfaced (id : Option Nat) (vr : Option ValidationResult)
    (env : RecordEnv) (token : String) (id_anak : Nat) (error : JsError) :
    handleAttendanceRecording true id vr { env with submit := .rejected error } token id_anak
        = .dispatchRecordAttendanceByQr
            { id_anak := id_anak, id_aktivitas := id, status := none, token := token,
              arrival_time := env.formattedArrivalTime }
          :: (if error.isDuplicate then []
              else [.showToast (orElse error.message "Failed to record") .error]) ∧
      handleTutorAttendanceRecording true id { env with submit := .rejected error } token
        = .dispatchRecordTutorAttendanceByQr
            { id_aktivitas := id, token := token, arrival_time := env.formattedArrivalTime }
          :: (if error.isDuplicate then []
              else [.showToast (orElse error.message "Failed to record tutor attendance")
                .error]) ∧
      (∀ c : Bool,
        (handleAttendanceRecording c id vr env token id_anak).any Effect.isEnqueue = !c ∧
        (handleTutorAttendanceRecording c id env token).any Effect.isEnqueue = !c) := by
  refine ⟨?_, ?_, fun c => ⟨handleAttendanceRecording_enqueue c id vr env token id_anak,
    handleTutorAttendanceRecording_enqueue c id env token⟩⟩
  · cases hd : error.isDuplicate <;> simp [handleAttendanceRecording, recordingCatch, hd]
  · cases hd : error.isDuplicate <;> simp [handleTutorAttendanceRecording, recordingCatch, hd]

/-- C2, the code at the failing input.  The activity is dated 2024-01-10 and the scan
happens at 08:30 on 2024-01-10, the same local day: the gate answers `past`, and the scan
opens the past-activity confirmation instead of proceeding. -/
theorem today_is_classified_past :
    localDay sampleZone sampleActivityDate = localDay sampleZone sampleNow ∧
      validateActivityDate sampleZone sampleParams.activityDate sampleNow = .past ∧
      handleScan (sampleScreen sampleNow) { participantScanEnv with pressed := none } sampleQr
        = (sampleScreen sampleNow,
           [.alert "Past Activity"
              "This activity was in the past. Attendance will be marked as absent."
              (pastActivityButtons sampleQr)]) := by
  decide

/-- C3.  When the activity is classified `future`, `handleScan` returns for every scanned
token with the state unchanged (so `isProcessing` is not set) and with no instructor
probe, no token validation dispatch and no recording operation. -/
theorem handleScan_future_blocks (s : Screen) (env : ScanEnv) (qrData : QrData)
    (h : s.activityDateStatus = .future) :
    (handleScan s env qrData).1 = s ∧
      ∀ e ∈ (handleScan s env qrData).2,
        e.isProbe = false ∧ e.isValidationDispatch = false ∧ e.isRecording = false := by
  refine ⟨(handleScan_future s env qrData h).1, fun e he => ?_⟩
  have hp := (handleScan_future s env qrData h).2 e he
  simp only [Effect.processesScan, Bool.or_eq_false_iff] at hp
  exact ⟨hp.1.1, hp.1.2, hp.2⟩

/-- C3, witness: the sample activity, mounted the day before its date, with a scan. -/
theorem handleScan_future_blocks_witness :
    (handleScan (sampleScreen sampleDayBefore) tutorScanEnv sampleQr).1
        = sampleScreen sampleDayBefore ∧
      ∀ e ∈ (handleScan (sampleScreen sampleDayBefore) tutorScanEnv sampleQr).2,
        e.isProbe = false ∧ e.isValidationDispatch = false ∧ e.isRecording = false :=
  handleScan_future_blocks (sampleScreen sampleDayBefore) tutorScanEnv sampleQr (by decide)

/-- C4, counterexample.  The sample activity is mounted the day before its date, so the
state is classified `future`; a valid validation result then arrives in the store, and the
effect submits a record to the authority. -/
theorem future_store_result_is_recorded :
    (sampleScreen sampleDayBefore).activityDateStatus = .future ∧
      (run (sampleScreen sampleDayBefore)
          [.storeValidationResult (some sampleValidation) sampleRecordEnv]).1.activityDateStatus
        = .future ∧
      Effect.dispatchRecordAttendanceByQr
          { id_anak := 1, id_aktivitas := some 7, status := none, token := "T1",
            arrival_time := "2024-01-10 08:30:00" }
        ∈ (run (sampleScreen sampleDayBefore)
            [.storeValidationResult (some sampleValidation) sampleRecordEnv]).2 := by
  decide

/-- C4, as amended.  From a state classified `future` whose store holds no validation
result, every sequence of scans, timer expiries, connectivity notifications and group
list loads leaves the state classified `future` with no validation result, and performs
no instructor probe, no token validation dispatch and no recording operation. -/
theorem future_scans_never_record (events : List Event) (s : Screen)
    (hf : s.activityDateStatus = .future) (hv : s.validationResult = none)
    (hev : ∀ ev ∈ events, ev.isStoreResult = false) :
    (run s events).1.activityDateStatus = .future ∧
      (run s events).1.validationResult = none ∧
      ∀ e ∈ (run s events).2,
        e.isProbe = false ∧ e.isValidationDispatch = false ∧ e.isRecording = false := by
  induction events generalizing s with
  | nil => simp [run, hf, hv]
  | cons ev rest ih =>
    have h1 := step_future s ev hf hv (hev ev (List.mem_cons_self ev rest))
    have h2 := ih (step s ev).1 h1.1 h1.2.1
      (fun e he => hev e (List.mem_cons_of_mem ev he))
    refine ⟨h2.1, h2.2.1, fun e he => ?_⟩
    simp only [run, List.mem_append] at he
    rcases he with he | he
    · have hp := h1.2.2 e he
      simp only [Effect.processesScan, Bool.or_eq_false_iff] at hp
      exact ⟨hp.1.1, hp.1.2, hp.2⟩
    · exact h2.2.2 e he

/-- C4, witness: an instructor scan, a timer expiry, a participant scan, a connectivity
notification and a group list load on the sample activity mounted the day before. -/
theorem future_scans_never_record_witness :
    (run (sampleScreen sampleDayBefore)
        [.scan sampleQr tutorScanEnv, .processingTimeout, .scan sampleQr participantScanEnv,
         .netInfo { isConnected := some true, isInternetReachable := none },
         .kelompokStudents [1, 2] sampleRecordEnv]).1.activityDateStatus = .future ∧
      (run (sampleScreen sampleDayBefore)
        [.scan sampleQr tutorScanEnv, .processingTimeout, .scan sampleQr participantScanEnv,
         .netInfo { isConnected := some true, isInternetReachable := none },
         .kelompokStudents [1, 2] sampleRecordEnv]).1.validationResult = none ∧
      ∀ e ∈ (run (sampleScreen sampleDayBefore)
        [.scan sampleQr tutorScanEnv, .processingTimeout, .scan sampleQr participantScanEnv,
         .netInfo { isConnected := some true, isInternetReachable := none },
         .kelompokStudents [1, 2] sampleRecordEnv]).2,
        e.isProbe = false ∧ e.isValidationDispatch = false ∧ e.isRecording = false :=
  future_scans_never_record _ (sampleScreen sampleDayBefore) (by decide) (by decide)
    (by decide)

/-- C5.  When the activity is classified `past`, `handleScan` does nothing or opens the
confirmation dialog first; a probe, validation dispatch or recording happens only if the
button the user pressed is Continue; after Cancel the state is unchanged and nothing but
the dialog happened; after Continue, with an activity selected and no scan in progress,
what follows the dialog is `proceedWithScan`. -/
theorem handleScan_past_needs_continue (s : Screen) (env : ScanEnv) (qrData : QrData)
    (h : s.activityDateStatus = .past) :
    ((handleScan s env qrData).2 = [] ∨
      (handleScan s env qrData).2.head? =
        some (.alert "Past Activity"
          "This activity was in the past. Attendance will be marked as absent."
          (pastActivityButtons qrData))) ∧
    ((handleScan s env qrData).2.any Effect.processesScan = true →
      pressedText (pastActivityButtons qrData) env.pressed = some "Continue") ∧
    (pressedText (pastActivityButtons qrData) env.pressed = some "Cancel" →
      (handleScan s env qrData).1 = s ∧
      (handleScan s env qrData).2.any Effect.processesScan = false) ∧
    (pressedText (pastActivityButtons qrData) env.pressed = some "Continue" →
      truthyId s.id_aktivitas = true → s.isProcessing = false →
      handleScan s env qrData =
        ((proceedWithScan s env qrData).1,
         .alert "Past Activity"
           "This activity was in the past. Attendance will be marked as absent."
           (pastActivityButtons qrData) :: (proceedWithScan s env qrData).2)) := by
  rcases env with ⟨pressed, probe, tutor⟩
  rcases pressed with _ | _ | _ | n <;> cases hi : truthyId s.id_aktivitas <;>
    cases hp : s.isProcessing <;>
    simp [handleScan, h, hi, hp, pressButton, pastActivityButtons, pressedText,
      Effect.processesScan, Effect.isProbe, Effect.isValidationDispatch,
      Effect.isRecording, Effect.isSubmission, Effect.isEnqueue]

/-- C5, witness: the sample activity opened the day after its date, the user pressing
Cancel: the state is unchanged and no probe, validation or recording happened. -/
theorem handleScan_past_needs_continue_witness :
    (sampleScreen sampleDayAfter).activityDateStatus = .past ∧
      pressedText (pastActivityButtons sampleQr) cancelScanEnv.pressed = some "Cancel" ∧
      (handleScan (sampleScreen sampleDayAfter) cancelScanEnv sampleQr).1
        = sampleScreen sampleDayAfter ∧
      (handleScan (sampleScreen sampleDayAfter) cancelScanEnv sampleQr).2.any
        Effect.processesScan = false :=
  ⟨by decide, by decide,
    (handleScan_past_needs_continue (sampleScreen sampleDayAfter) cancelScanEnv sampleQr
      (by decide)).2.2.1 (by decide)⟩

/-- C7.  For every scanned token the trace of `proceedWithScan` starts with the
instructor probe, which is not repeated, and continues with exactly one of two paths:
the instructor recording handler when the probe answers success, the dispatch of the
participant token validation otherwise; the rest of the trace holds exactly one
instructor recording operation or validation dispatch, never both and never neither. -/
theorem proceedWithScan_one_path (s : Screen) (env : ScanEnv) (qrData : QrData) :
    (proceedWithScan s env qrData).2 =
        .validateTutorToken qrData.token ::
          (if env.probe = .resolved true then
            handleTutorAttendanceRecording firstRenderIsConnected s.id_aktivitas env.tutor
              qrData.token
           else [.dispatchValidateToken qrData.token]) ∧
      (proceedWithScan s env qrData).2.tail.any Effect.isProbe = false ∧
      (proceedWithScan s env qrData).2.tail.countP Effect.isTutorRecording
        + (proceedWithScan s env qrData).2.tail.countP Effect.isValidationDispatch = 1 ∧
      ((proceedWithScan s env qrData).2.any Effect.isTutorRecording = true ↔
        env.probe = .resolved true) ∧
      ((proceedWithScan s env qrData).2.any Effect.isValidationDispatch = true ↔
        env.probe ≠ .resolved true) := by
  rcases env with ⟨pressed, probe, t, sub, off⟩
  rcases probe with ⟨_ | _⟩ | _ | e <;> rcases sub with _ | ⟨_ | _, m⟩ <;>
    simp [proceedWithScan, validateIfTutorToken, handleTutorAttendanceRecording,
      firstRenderIsConnected, recordingCatch, Effect.isProbe, Effect.isTutorRecording,
      Effect.isValidationDispatch]

/-- C8.  When the probe request is rejected, `validateIfTutorToken` returns false and does
not throw, and `proceedWithScan` continues with the dispatch of the participant token
validation and nothing else; the same holds when reading the response throws. -/
theorem probe_failure_continues_as_participant (s : Screen) (env : ScanEnv)
    (qrData : QrData) (error : JsError) :
    (validateIfTutorToken qrData.token (.rejected error)).2 = .ok false ∧
      (proceedWithScan s { env with probe := .rejected error } qrData).2
        = [.validateTutorToken qrData.token, .dispatchValidateToken qrData.token] ∧
      (validateIfTutorToken qrData.token .malformed).2 = .ok false ∧
      (proceedWithScan s { env with probe := .malformed } qrData).2
        = [.validateTutorToken qrData.token, .dispatchValidateToken qrData.token] :=
  ⟨rfl, rfl, rfl, rfl⟩

/-- C9.  The effect on `validationResult` does something only for a result that is valid
and carries both a token and a subject, and every time it invokes the recording handler a
recording operation is performed; a result with `valid` false arriving in the store
causes no effect at all: no recording and no new validation dispatch. -/
theorem invalid_result_never_recorded (s : Screen) (env : RecordEnv) :
    (validationEffect s env ≠ [] →
      ∃ r token anak, s.validationResult = some r ∧ r.valid = true ∧
        r.token = some token ∧ r.anak = some anak) ∧
      (∀ (c : Bool) (token : String) (id_anak : Nat),
        (handleAttendanceRecording c s.id_aktivitas s.validationResult env token id_anak).any
          Effect.isRecording = true) ∧
      (∀ r : ValidationResult, r.valid = false →
        step s (.storeValidationResult (some r) env)
          = ({ s with validationResult := some r }, [])) := by
  refine ⟨?_, ?_, ?_⟩
  · intro hne
    unfold validationEffect at hne
    split at hne
    · rename_i r hr
      split at hne
      · rename_i token anak hv ht ha
        exact ⟨r, token, anak, hr, hv, ht, ha⟩
      · exact absurd rfl hne
    · exact absurd rfl hne
  · intro c token id_anak
    cases c <;> rcases env with ⟨t, sub, off⟩ <;> rcases sub with _ | ⟨d, m⟩ <;>
      rcases off with _ | ⟨d2, m2⟩ <;>
      simp [handleAttendanceRecording, Effect.isRecording, Effect.isSubmission,
        Effect.isEnqueue]
  · intro r hr
    simp [step, validationEffect, hr]

/-- C10, the code at the failing input.  The screen has been notified that the device is
offline.  A scanned instructor token, confirmed by the probe, is submitted to the
authority and not handed to the offline queue; a validated participant, in the same
state, is handed to the offline queue without a submission. -/
theorem offline_tutor_scan_submits :
    (run undatedScreen [.netInfo offlineNotice]).1.isConnected = false ∧
      (run undatedScreen [.netInfo offlineNotice, .scan sampleQr tutorScanEnv]).2
        = [.validateTutorToken "T1",
           .dispatchRecordTutorAttendanceByQr
             { id_aktivitas := some 7, token := "T1", arrival_time := "2024-01-10 08:30:00" },
           .playSound,
           .showToast "Present: Tutor (Tutor)" .success] ∧
      (run undatedScreen
          [.netInfo offlineNotice,
           .storeValidationResult (some sampleValidation) sampleRecordEnv]).2
        = [.offlineProcessAttendance
             (.participant
               { id_anak := 1, id_aktivitas := some 7, status := none, token := "T1",
                 arrival_time := "2024-01-10 08:30:00" }) "qr",
           .playSound,
           .showToast "Saved for syncing when online" .warning] := by
  decide

/-! ## Further lemmas -/

/-- A status word followed by anything is not the text of the queued notice. -/
theorem presence_word_ne_saved (result : RecordResult) (rest : String) :
    (presence result).1 ++ rest ≠ "Saved for syncing when online" := by
  have hw : (presence result).1 = "Present" ∨ (presence result).1 = "Absent" ∨
      (presence result).1 = "Late" := by
    rcases result with ⟨_ | ⟨_ | a, n⟩⟩
    · simp [presence]
    · simp [presence]
    · by_cases h1 : a = "Tidak"
      · simp [presence, h1]
      · by_cases h2 : a = "Terlambat"
        · simp [presence, h2]
        · simp [presence, h1, h2]
  intro h
  have hd := congrArg String.data h
  rw [String.data_append] at hd
  rcases hw with hw | hw | hw <;> rw [hw] at hd <;> simp at hd

/-- The reading of `presence` in terms of the answer's `absen`. -/
theorem presence_cases (result : RecordResult) :
    ((∃ d, result.data = some d ∧ d.absen = some "Tidak") ∧
        presence result = ("Absent", .error)) ∨
      ((∃ d, result.data = some d ∧ d.absen = some "Terlambat") ∧
        presence result = ("Late", .warning)) ∨
      ((∀ d, result.data = some d → d.absen ≠ some "Tidak" ∧ d.absen ≠ some "Terlambat") ∧
        presence result = ("Present", .success)) := by
  rcases result with ⟨_ | ⟨_ | a, n⟩⟩
  · simp [presence]
  · simp [presence]
  · by_cases h1 : a = "Tidak"
    · simp [presence, h1]
    · by_cases h2 : a = "Terlambat"
      · simp [presence, h2]
      · simp [presence, h1, h2]

/-- Only a connectivity notification changes `isConnected`. -/
theorem step_isConnected (s : Screen) (ev : Event) :
    (step s ev).1.isConnected =
      match ev with
      | .netInfo state => truthy state.isConnected && truthy state.isInternetReachable
      | _ => s.isConnected := by
  cases ev with
  | scan qrData env =>
    rcases env with ⟨pressed, probe, tutor⟩
    rcases pressed with _ | _ | _ | n <;> cases hi : truthyId s.id_aktivitas <;>
      cases hp : s.isProcessing <;> cases hs : s.activityDateStatus <;>
      simp [step, handleScan, hi, hp, hs, pressButton, pastActivityButtons, proceedWithScan]
  | processingTimeout => rfl
  | netInfo state => rfl
  | storeValidationResult result env => rfl
  | kelompokStudents ids env => rfl

/-! ## Claims, continued -/

/-- C13.  When a recording attempt fails with an error flagged as a duplicate, neither
handler shows any toast, so no feedback of type error, on the online and on the offline
path alike; and the effect on the store's duplicate errors shows nothing but a toast of
type warning, carrying the participant duplicate message when there is one and the
instructor duplicate message otherwise. -/
theorem duplicate_is_informational (c : Bool) (id : Option Nat)
    (vr : Option ValidationResult) (env : RecordEnv) (token : String) (id_anak : Nat)
    (message duplicateError tutorDuplicateError : Option String) :
    (handleAttendanceRecording c id vr
        { env with
          submit := .rejected { isDuplicate := true, message := message }
          offline := .rejected { isDuplicate := true, message := message } }
        token id_anak).any Effect.isToast = false ∧
      (handleTutorAttendanceRecording c id
        { env with
          submit := .rejected { isDuplicate := true, message := message }
          offline := .rejected { isDuplicate := true, message := message } }
        token).any Effect.isToast = false ∧
      (∀ e ∈ duplicateErrorEffect duplicateError tutorDuplicateError,
        ∃ m, e = .showToast m .warning) ∧
      (truthyStr duplicateError = true →
        duplicateErrorEffect duplicateError tutorDuplicateError
          = [.showToast (duplicateError.getD "") .warning]) ∧
      (truthyStr duplicateError = false → truthyStr tutorDuplicateError = true →
        duplicateErrorEffect duplicateError tutorDuplicateError
          = [.showToast (tutorDuplicateError.getD "") .warning]) := by
  refine ⟨?_, ?_, ?_, ?_, ?_⟩
  · cases c <;> simp [handleAttendanceRecording, recordingCatch, Effect.isToast]
  · cases c <;> simp [handleTutorAttendanceRecording, recordingCatch, Effect.isToast]
  · intro e he
    unfold duplicateErrorEffect at he
    split at he
    · simp at he
      exact ⟨_, he⟩
    · simp at he
  · intro h
    rcases duplicateError with _ | d
    · simp [truthyStr] at h
    · simp [truthyStr] at h
      simp [duplicateErrorEffect, truthyStr, orElse, h]
  · intro h1 h2
    rcases tutorDuplicateError with _ | t
    · simp [truthyStr] at h2
    · simp [truthyStr] at h2
      rcases duplicateError with _ | d
      · simp [duplicateErrorEffect, truthyStr, orElse, h2]
      · simp [truthyStr] at h1
        simp [duplicateErrorEffect, truthyStr, orElse, h1, h2]

/-- C15.  A queued record, participant or instructor, produces the single toast
'Saved for syncing when online' of type warning; a confirmed record produces a single
toast too, and no effect of a confirmed recording equals the queued toast, whatever the
authority answered and whatever the subject's name. -/
theorem queued_feedback_differs (id : Option Nat) (vr : Option ValidationResult)
    (env : RecordEnv) (token : String) (id_anak : Nat) (result : RecordResult) :
    (handleAttendanceRecording false id vr { env with offline := .fulfilled () } token
        id_anak).filter Effect.isToast
      = [.showToast "Saved for syncing when online" .warning] ∧
    (handleTutorAttendanceRecording false id { env with offline := .fulfilled () }
        token).filter Effect.isToast
      = [.showToast "Saved for syncing when online" .warning] ∧
    ((handleAttendanceRecording true id vr { env with submit := .fulfilled result } token
        id_anak).filter Effect.isToast).length = 1 ∧
    ((handleTutorAttendanceRecording true id { env with submit := .fulfilled result }
        token).filter Effect.isToast).length = 1 ∧
    (∀ e ∈ handleAttendanceRecording true id vr { env with submit := .fulfilled result }
        token id_anak, e ≠ .showToast "Saved for syncing when online" .warning) ∧
    (∀ e ∈ handleTutorAttendanceRecording true id { env with submit := .fulfilled result }
        token, e ≠ .showToast "Saved for syncing when online" .warning) := by
  refine ⟨by simp [handleAttendanceRecording, Effect.isToast],
    by simp [handleTutorAttendanceRecording, Effect.isToast],
    by simp [handleAttendanceRecording, Effect.isToast],
    by simp [handleTutorAttendanceRecording, Effect.isToast], ?_, ?_⟩
  · intro e he heq
    subst heq
    simp only [handleAttendanceRecording, if_true, List.mem_cons, List.mem_singleton,
      List.not_mem_nil, or_false] at he
    rcases he with he | he | he
    · cases he
    · cases he
    · injection he with hm _
      rw [String.append_assoc] at hm
      exact presence_word_ne_saved result _ hm.symm
  · intro e he heq
    subst heq
    simp only [handleTutorAttendanceRecording, if_true, List.mem_cons, List.mem_singleton,
      List.not_mem_nil, or_false] at he
    rcases he with he | he | he
    · cases he
    · cases he
    · injection he with hm _
      rw [String.append_assoc, String.append_assoc] at hm
      exact presence_word_ne_saved result _ hm.symm

/-- C17.  After any sequence of events `isConnected` is the conjunction of the two
properties of the last connectivity notification, or its former value when there was
none; a single event other than a notification leaves it unchanged, and so do
`handleScan` and `proceedWithScan`. -/
theorem isConnected_follows_notices (s : Screen) (events : List Event) :
    (run s events).1.isConnected =
        (match lastNotice events with
         | some state => truthy state.isConnected && truthy state.isInternetReachable
         | none => s.isConnected) ∧
      (∀ state, (step s (.netInfo state)).1.isConnected
        = (truthy state.isConnected && truthy state.isInternetReachable)) ∧
      (∀ ev, ev.isNetInfo = false → (step s ev).1.isConnected = s.isConnected) ∧
      (∀ env qrData, (handleScan s env qrData).1.isConnected = s.isConnected ∧
        (proceedWithScan s env qrData).1.isConnected = s.isConnected) := by
  refine ⟨?_, fun _ => rfl, ?_, ?_⟩
  · induction events generalizing s with
    | nil => rfl
    | cons ev rest ih =>
      have h1 := ih (step s ev).1
      have h2 := step_isConnected s ev
      simp only [run, lastNotice]
      rw [h1]
      cases hl : lastNotice rest with
      | some state => rfl
      | none =>
        simp only []
        rw [h2]
        cases ev <;> rfl
  · intro ev hev
    have h2 := step_isConnected s ev
    cases ev <;> first | exact h2 | simp [Event.isNetInfo] at hev
  · intro env qrData
    exact ⟨step_isConnected s (.scan qrData env), rfl⟩

/-- For an instant `t` whose local calendar day differs from the day of `now`, the gate
answers `future` exactly when the day of `t` is after today and `past` exactly when it
is before today. -/
theorem other_day_classification (tz t now : Int)
    (h : localDay tz t ≠ localDay tz now) :
    (validateActivityDate tz (.date (some t)) now = .future ↔
        localDay tz now < localDay tz t) ∧
      (validateActivityDate tz (.date (some t)) now = .past ↔
        localDay tz t < localDay tz now) := by
  have hb := startOfDay_bounds tz now
  simp only [validateActivityDate, startOfDay, isFuture, isPast]
  unfold msPerDay at hb ⊢
  rcases lt_or_gt_of_ne h with hlt | hgt
  · have h1 : ¬ (now < localDay tz t * 86400000 - tz) := by omega
    have h2 : localDay tz t * 86400000 - tz < now := by omega
    have h3 : ¬ (localDay tz now < localDay tz t) := by omega
    simp [h1, h2, h3, hlt]
  · have h1 : now < localDay tz t * 86400000 - tz := by omega
    have h3 : ¬ (localDay tz t < localDay tz now) := by omega
    simp [h1, h3, hgt]

/-- In a zone at or east of UTC, less than a day ahead, the instant read from a date-only
string lies on the written day. -/
theorem localDay_dateOnlyTime_east (tz day : Int) (h0 : 0 ≤ tz) (h1 : tz < msPerDay) :
    localDay tz (dateOnlyTime day) = day := by
  unfold localDay dateOnlyTime msPerDay at *
  omega

/-- In a zone west of UTC, at most a day behind, the instant read from a date-only string
lies on the day before the written day. -/
theorem localDay_dateOnlyTime_west (tz day : Int) (h0 : -msPerDay ≤ tz) (h1 : tz < 0) :
    localDay tz (dateOnlyTime day) = day - 1 := by
  unfold localDay dateOnlyTime msPerDay at *
  omega

/-- In a zone at or east of UTC, a date-only activity date written for another day than
today is classified by the written day: `future` exactly when it is after today, `past`
exactly when it is before today. -/
theorem written_day_classification_east (tz day now : Int) (h0 : 0 ≤ tz)
    (h1 : tz < msPerDay) (h : day ≠ localDay tz now) :
    (validateActivityDate tz (.date (some (dateOnlyTime day))) now = .future ↔
        localDay tz now < day) ∧
      (validateActivityDate tz (.date (some (dateOnlyTime day))) now = .past ↔
        day < localDay tz now) := by
  have hd := localDay_dateOnlyTime_east tz day h0 h1
  have hc := other_day_classification tz (dateOnlyTime day) now (by rw [hd]; exact h)
  rw [hd] at hc
  exact hc

/-- C19.  Evaluation at the failing input.  The activity date is written '2024-01-10',
which `new Date` reads as midnight UTC; the device is five hours behind UTC and it is
23:00 on 2024-01-09 there.  The written day is the day after today, yet the instant read
lies on today's local day, its local midnight is before now, and the gate answers `past`,
not `future`. -/
theorem written_day_after_today_is_past :
    dateOnlyTime sampleWrittenDay = sampleActivityDate ∧
      localDay westZone westEvening = sampleWrittenDay - 1 ∧
      localDay westZone (dateOnlyTime sampleWrittenDay) = localDay westZone westEvening ∧
      startOfDay westZone (some (dateOnlyTime sampleWrittenDay)) = some 1704776400000 ∧
      validateActivityDate westZone (.date (some (dateOnlyTime sampleWrittenDay)))
          westEvening = .past := by
  decide

/-- C20.  After an accepted submission the toast of either handler is the status word and
toast type read off the answer by the same function `presence`, which sees nothing but
the answer: 'Tidak' gives Absent with type error, 'Terlambat' gives Late with type
warning, every other value and a missing value give Present with type success. -/
theorem shown_status_from_absen (id : Option Nat) (vr : Option ValidationResult)
    (env : RecordEnv) (token : String) (id_anak : Nat) (result : RecordResult)
    (name : Option String) :
    (handleAttendanceRecording true id vr { env with submit := .fulfilled result } token
        id_anak).filter Effect.isToast
      = [.showToast
          ((presence result).1 ++ ": "
            ++ orElse ((vr.bind fun r => r.anak).bind fun a => a.full_name) "Student")
          (presence result).2] ∧
    (handleTutorAttendanceRecording true id { env with submit := .fulfilled result }
        token).filter Effect.isToast
      = [.showToast
          ((presence result).1 ++ ": "
            ++ orElse (result.data.bind fun d => d.tutorNama) "Tutor" ++ " (Tutor)")
          (presence result).2] ∧
    presence { data := some { absen := some "Tidak", tutorNama := name } }
      = ("Absent", .error) ∧
    presence { data := some { absen := some "Terlambat", tutorNama := name } }
      = ("Late", .warning) ∧
    (∀ absen : Option String, absen ≠ some "Tidak" → absen ≠ some "Terlambat" →
      presence { data := some { absen := absen, tutorNama := name } }
        = ("Present", .success)) ∧
    presence { data := none } = ("Present", .success) := by
  refine ⟨by simp [handleAttendanceRecording, Effect.isToast],
    by simp [handleTutorAttendanceRecording, Effect.isToast], rfl, ?_, ?_, rfl⟩
  · simp [presence]
  · intro absen h1 h2
    rcases absen with _ | a
    · rfl
    · have h1' : a ≠ "Tidak" := fun h => h1 (by rw [h])
      have h2' : a ≠ "Terlambat" := fun h => h2 (by rw [h])
      simp [presence, h1', h2']

end QrScannerScreen

namespace SuperAdminUserFormScreen

/-- C18.  Whenever the authenticated user's identifier and the target identifier are both
present and equal as strings, `handleSubmit` shows the refusal and returns: it makes no
call of `superAdminUserApi.update`, and the whole form state (user, role, status, profile
form and selections included) is what it was, whatever role or status had been chosen. -/
theorem self_modification_blocked (roles : UserRoles) (authUser : Option AuthUser)
    (userId : Option JsId) (f : FormState) (outcome : UpdateOutcome) (a t : JsId)
    (ha : resolvedAuthId authUser = some a) (ht : userId = some t)
    (heq : a.toStr = t.toStr) :
    isSelfModification authUser userId = true ∧
      (handleSubmit roles authUser userId f outcome).1 = f ∧
      (handleSubmit roles authUser userId f outcome).2
        = [.alert "Tidak Diizinkan"
            "Anda tidak dapat mengubah role atau status akun sendiri."] ∧
      (handleSubmit roles authUser userId f outcome).2.any FormEffect.isUpdate = false := by
  have hs : isSelfModification authUser userId = true := by
    simp [isSelfModification, ha, ht, heq]
  simp [handleSubmit, hs, FormEffect.isUpdate]

/-- C18, witness: the authenticated user has the numeric identifier 5 and opens the form
of user '5' with another role and status chosen. -/
theorem self_modification_blocked_witness :
    isSelfModification (some sampleAuthUser) (some (.str "5")) = true ∧
      (handleSubmit sampleRoles (some sampleAuthUser) (some (.str "5")) sampleForm
        (.fulfilled none true)).1 = sampleForm ∧
      (handleSubmit sampleRoles (some sampleAuthUser) (some (.str "5")) sampleForm
        (.fulfilled none true)).2
        = [.alert "Tidak Diizinkan"
            "Anda tidak dapat mengubah role atau status akun sendiri."] ∧
      (handleSubmit sampleRoles (some sampleAuthUser) (some (.str "5")) sampleForm
        (.fulfilled none true)).2.any FormEffect.isUpdate = false :=
  self_modification_blocked sampleRoles (some sampleAuthUser) (some (.str "5")) sampleForm
    (.fulfilled none true) (.num 5) (.str "5") rfl rfl (by decide)

end SuperAdminUserFormScreen

namespace OfflineSync

open QrScannerScreen

/-! ## Lemmas on the replay -/

/-- The submissions of one entry are appended to the trace. -/
theorem replayEntry_trace (verdict : Nat → Nat → Option String) (budget : Nat) :
    ∀ (e : QueueEntry) (st : ReplayState),
      (replayEntry verdict e budget st).trace = st.trace ++ attemptsOf verdict e budget := by
  induction budget with
  | zero => intro e st; simp [replayEntry, attemptsOf]
  | succ b ih =>
    intro e st
    cases hv : verdict e.localId e.attemptCount with
    | none => simp [replayEntry, attemptsOf, hv]
    | some reason => simp [replayEntry, attemptsOf, hv, ih]

/-- Every submission of an entry carries the entry's `localId`. -/
theorem attemptsOf_localId (verdict : Nat → Nat → Option String) (budget : Nat) :
    ∀ (e : QueueEntry), ∀ x ∈ attemptsOf verdict e budget, x.1 = e.localId := by
  induction budget with
  | zero => intro e x hx; simp [attemptsOf] at hx
  | succ b ih =>
    intro e x hx
    cases hv : verdict e.localId e.attemptCount with
    | none =>
      simp [attemptsOf, hv] at hx
      rw [hx]
    | some reason =>
      simp only [attemptsOf, hv, List.mem_cons] at hx
      rcases hx with hx | hx
      · rw [hx]
      · exact ih { e with attemptCount := e.attemptCount + 1, lastError := some reason } x hx

/-- An entry with budget left is submitted, first with its current attempt number. -/
theorem attemptsOf_head (verdict : Nat → Nat → Option String) (e : QueueEntry)
    (budget : Nat) (hb : 0 < budget) :
    (e.localId, e.attemptCount) ∈ attemptsOf verdict e budget := by
  cases budget with
  | zero => omega
  | succ b =>
    cases hv : verdict e.localId e.attemptCount <;> simp [attemptsOf, hv]

/-- The ledger after the replay of an entry depends on the ledger before it alone. -/
theorem replayEntry_ledger_congr (verdict : Nat → Nat → Option String) (budget : Nat) :
    ∀ (e : QueueEntry) (st st' : ReplayState), st.ledger = st'.ledger →
      (replayEntry verdict e budget st).ledger = (replayEntry verdict e budget st').ledger := by
  induction budget with
  | zero => intro e st st' h; simpa [replayEntry] using h
  | succ b ih =>
    intro e st st' h
    cases hv : verdict e.localId e.attemptCount with
    | none => simp [replayEntry, hv, h]
    | some reason =>
      simp only [replayEntry, hv]
      exact ih _ _ _ h

/-- The synced keys after the replay of an entry depend on those before it alone. -/
theorem replayEntry_synced_congr (verdict : Nat → Nat → Option String) (budget : Nat) :
    ∀ (e : QueueEntry) (st st' : ReplayState), st.synced = st'.synced →
      (replayEntry verdict e budget st).synced = (replayEntry verdict e budget st').synced := by
  induction budget with
  | zero => intro e st st' h; simpa [replayEntry] using h
  | succ b ih =>
    intro e st st' h
    cases hv : verdict e.localId e.attemptCount with
    | none => simp [replayEntry, hv, h]
    | some reason =>
      simp only [replayEntry, hv]
      exact ih _ _ _ h

/-- An entry all of whose attempts fail is kept, marked Failed, with every attempt
counted; the ledger and the synced keys are untouched. -/
theorem replayEntry_all_fail (verdict : Nat → Nat → Option String) (budget : Nat) :
    ∀ (e : QueueEntry) (st : ReplayState),
      (∀ a, (verdict e.localId a).isSome = true) →
      (replayEntry verdict e budget st).ledger = st.ledger ∧
      (replayEntry verdict e budget st).synced = st.synced ∧
      ∃ e', (replayEntry verdict e budget st).kept = st.kept ++ [e'] ∧
        e'.syncState = .failed ∧ e'.localId = e.localId ∧ e'.record = e.record ∧
        e'.attemptCount = e.attemptCount + budget := by
  induction budget with
  | zero =>
    intro e st _
    exact ⟨rfl, rfl, { e with syncState := .failed }, rfl, rfl, rfl, rfl, rfl⟩
  | succ b ih =>
    intro e st hf
    cases hv : verdict e.localId e.attemptCount with
    | none =>
      have := hf e.attemptCount
      simp [hv] at this
    | some reason =>
      have h := ih { e with attemptCount := e.attemptCount + 1, lastError := some reason }
        { st with trace := st.trace ++ [(e.localId, e.attemptCount)] } hf
      simp only [replayEntry, hv]
      refine ⟨h.1, h.2.1, ?_⟩
      rcases h.2.2 with ⟨e', hk, hs, hl, hr, hc⟩
      exact ⟨e', hk, hs, hl, hr, by simp at hc; omega⟩

/-- A pass over two lists in a row is the pass over the second after the first. -/
theorem replayFrom_append (maxAttempts : Nat) (verdict : Nat → Nat → Option String)
    (l1 l2 : List QueueEntry) :
    ∀ st, replayFrom maxAttempts verdict (l1 ++ l2) st
      = replayFrom maxAttempts verdict l2 (replayFrom maxAttempts verdict l1 st) := by
  induction l1 with
  | nil => intro st; rfl
  | cons e rest ih =>
    intro st
    by_cases hp : e.syncState = .pending
    · simp [replayFrom, hp, ih]
    · simp [replayFrom, hp, ih]

/-- The trace of a pass: the submissions of the Pending entries, entry after entry in
enqueue order. -/
theorem replayFrom_trace (maxAttempts : Nat) (verdict : Nat → Nat → Option String)
    (l : List QueueEntry) :
    ∀ st, (replayFrom maxAttempts verdict l st).trace
      = st.trace ++ (l.filter fun e => e.syncState = .pending).flatMap
          fun e => attemptsOf verdict e (maxAttempts - e.attemptCount) := by
  induction l with
  | nil => intro st; simp [replayFrom]
  | cons e rest ih =>
    intro st
    by_cases hp : e.syncState = .pending
    · simp [replayFrom, hp, ih, replayEntry_trace, List.flatMap_cons]
    · simp [replayFrom, hp, ih]

/-- The ledger and the synced keys after a pass depend on those before it alone. -/
theorem replayFrom_congr (maxAttempts : Nat) (verdict : Nat → Nat → Option String)
    (l : List QueueEntry) :
    ∀ st st', st.ledger = st'.ledger → st.synced = st'.synced →
      (replayFrom maxAttempts verdict l st).ledger
          = (replayFrom maxAttempts verdict l st').ledger ∧
        (replayFrom maxAttempts verdict l st).synced
          = (replayFrom maxAttempts verdict l st').synced := by
  induction l with
  | nil => intro st st' h1 h2; exact ⟨h1, h2⟩
  | cons e rest ih =>
    intro st st' h1 h2
    by_cases hp : e.syncState = .pending
    · simp only [replayFrom, hp, if_true]
      exact ih _ _ (replayEntry_ledger_congr verdict _ e st st' h1)
        (replayEntry_synced_congr verdict _ e st st' h2)
    · simp only [replayFrom, hp, if_false]
      exact ih _ _ h1 h2

/-- What a pass has kept stays kept. -/
theorem replayFrom_kept_mono (maxAttempts : Nat) (verdict : Nat → Nat → Option String)
    (l : List QueueEntry) :
    ∀ st, ∀ x ∈ st.kept, x ∈ (replayFrom maxAttempts verdict l st).kept := by
  induction l with
  | nil => intro st x hx; exact hx
  | cons e rest ih =>
    intro st x hx
    by_cases hp : e.syncState = .pending
    · simp only [replayFrom, hp, if_true]
      refine ih _ x ?_
      have hmono : ∀ (b : Nat) (e : QueueEntry) (st : ReplayState), x ∈ st.kept →
          x ∈ (replayEntry verdict e b st).kept := by
        intro b
        induction b with
        | zero => intro e st h; simp [replayEntry, h]
        | succ b ihb =>
          intro e st h
          cases hv : verdict e.localId e.attemptCount with
          | none => simpa [replayEntry, hv] using h
          | some reason =>
            simp only [replayEntry, hv]
            exact ihb _ _ h
      exact hmono _ e st hx
    · simp only [replayFrom, hp, if_false]
      exact ih _ x (by simp [hx])

/-! ## Claims on the queue -/

/-- C16.  A replay pass submits the Pending entries in enqueue order: its trace is the
submissions of the first Pending entry, then those of the second, and so on, each
submission carrying its entry's `localId`.  An entry all of whose attempts fail is kept
and marked Failed; every Pending entry enqueued after it that has attempts left is still
submitted, and the ledger and the synced keys after the pass are those of the pass over
the queue without the failing entry. -/
theorem replay_fifo_isolated (maxAttempts : Nat) (verdict : Nat → Nat → Option String)
    (q : Queue) (ledger : List RecordKey) (pre post : List QueueEntry) (e : QueueEntry)
    (hq : q.entries = pre ++ e :: post) (hp : e.syncState = .pending)
    (hfail : ∀ a, (verdict e.localId a).isSome = true) :
    (replayPass maxAttempts verdict q ledger).trace
        = (q.entries.filter fun x => x.syncState = .pending).flatMap
            (fun x => attemptsOf verdict x (maxAttempts - x.attemptCount)) ∧
      (∀ x ∈ q.entries, ∀ a ∈ attemptsOf verdict x (maxAttempts - x.attemptCount),
        a.1 = x.localId) ∧
      (∃ e' ∈ (replayPass maxAttempts verdict q ledger).kept,
        e'.syncState = .failed ∧ e'.localId = e.localId ∧ e'.record = e.record) ∧
      (∀ x ∈ post, x.syncState = .pending → x.attemptCount < maxAttempts →
        (x.localId, x.attemptCount) ∈ (replayPass maxAttempts verdict q ledger).trace) ∧
      (replayPass maxAttempts verdict q ledger).ledger
        = (replayPass maxAttempts verdict { q with entries := pre ++ post } ledger).ledger ∧
      (replayPass maxAttempts verdict q ledger).synced
        = (replayPass maxAttempts verdict { q with entries := pre ++ post } ledger).synced := by
  have htrace := replayFrom_trace maxAttempts verdict q.entries
    { kept := [], synced := q.synced, ledger := ledger, trace := [] }
  simp only [List.nil_append] at htrace
  have hsplit : replayPass maxAttempts verdict q ledger
      = replayFrom maxAttempts verdict post
          (replayEntry verdict e (maxAttempts - e.attemptCount)
            (replayFrom maxAttempts verdict pre
              { kept := [], synced := q.synced, ledger := ledger, trace := [] })) := by
    simp [replayPass, hq, replayFrom_append, replayFrom, hp]
  have hfailE := replayEntry_all_fail verdict (maxAttempts - e.attemptCount) e
    (replayFrom maxAttempts verdict pre
      { kept := [], synced := q.synced, ledger := ledger, trace := [] }) hfail
  refine ⟨htrace, fun x _ a ha => attemptsOf_localId verdict _ x a ha, ?_, ?_, ?_⟩
  · rcases hfailE.2.2 with ⟨e', hk, hs, hl, hr, _⟩
    refine ⟨e', ?_, hs, hl, hr⟩
    rw [hsplit]
    exact replayFrom_kept_mono maxAttempts verdict post _ e' (by simp [hk])
  · intro x hx hxp hxa
    show (x.localId, x.attemptCount) ∈ (replayPass maxAttempts verdict q ledger).trace
    unfold replayPass
    rw [htrace, List.mem_flatMap]
    refine ⟨x, ?_, attemptsOf_head verdict x _ (by omega)⟩
    simp [hq, hx, hxp]
  · have hc := replayFrom_congr maxAttempts verdict post _ _ hfailE.1 hfailE.2.1
    rw [hsplit]
    simpa [replayPass, replayFrom_append] using hc

/-- C16, witness: of three Pending entries the first fails at every attempt; the second
is submitted all the same, and the ledger is that of the pass without the first. -/
theorem replay_fifo_isolated_witness :
    (sampleEntry 0 1).syncState = .pending ∧
      (∀ a, (failsZero (sampleEntry 0 1).localId a).isSome = true) ∧
      (replayPass 3 failsZero sampleQueue []).trace
        = [(0, 0), (0, 1), (0, 2), (1, 0), (2, 0)] ∧
      (1, 0) ∈ (replayPass 3 failsZero sampleQueue []).trace ∧
      (replayPass 3 failsZero sampleQueue []).ledger
        = (replayPass 3 failsZero
            { sampleQueue with entries := [] ++ [sampleEntry 1 2, sampleEntry 2 3] }
            []).ledger :=
  have h := replay_fifo_isolated 3 failsZero sampleQueue [] [] [sampleEntry 1 2, sampleEntry 2 3]
    (sampleEntry 0 1) rfl rfl (fun _ => rfl)
  ⟨rfl, fun _ => rfl, h.1.trans (by decide),
    h.2.2.2.1 (sampleEntry 1 2) (by decide) rfl (by decide), h.2.2.2.2.1⟩

/-! ## Lemmas on the world -/

/-- The authority never enters a pair twice. -/
theorem authoritySubmit_nodup (ledger : List RecordKey) (k : RecordKey)
    (oracle : Settled RecordResult) (h : ledger.Nodup) :
    (authoritySubmit ledger k oracle).1.Nodup := by
  unfold authoritySubmit
  cases oracle with
  | rejected e => exact h
  | fulfilled r =>
    by_cases hk : k ∈ ledger
    · simp [hk, h]
    · simp [hk, h, List.nodup_append]

/-- The queue never holds two Pending entries for a pair. -/
theorem processAttendance_nodup (q : Queue) (record : OfflinePayload) (method : String)
    (h : q.pendingKeys.Nodup) : (processAttendance q record method).1.pendingKeys.Nodup := by
  unfold processAttendance
  by_cases hl : q.hasLive (keyOf record) = true
  · simp [hl, h]
  · have hk : keyOf record ∉ q.pendingKeys := by
      intro hmem
      apply hl
      simp [Queue.hasLive, hmem]
    simp only [hl]
    simp only [Queue.pendingKeys, List.filter_append, List.map_append] at hk ⊢
    simp [List.nodup_append, hk]
    exact h

/-- A recording operation keeps the world well formed. -/
theorem commit_wellFormed (w : World) (env : RecordEnv) (op : Effect)
    (h : w.wellFormed) : (commit w env op).1.wellFormed := by
  cases op with
  | dispatchRecordAttendanceByQr p => exact ⟨authoritySubmit_nodup _ _ _ h.1, h.2⟩
  | dispatchRecordTutorAttendanceByQr p => exact ⟨authoritySubmit_nodup _ _ _ h.1, h.2⟩
  | offlineProcessAttendance p method =>
    unfold commit
    cases env.offline with
    | rejected e => exact h
    | fulfilled u => exact ⟨h.1, processAttendance_nodup _ _ _ h.2⟩
  | alert _ _ _ => exact h
  | validateTutorToken _ => exact h
  | dispatchValidateToken _ => exact h
  | playSound => exact h
  | showToast _ _ => exact h

/-- A screen event keeps the world well formed. -/
theorem uiStep_wellFormed (w : World) (ev : Event) (h : w.wellFormed) :
    (uiStep w ev).1.wellFormed := by
  unfold uiStep
  split
  · exact commit_wellFormed _ _ _ h
  · exact h

/-- The replay of an entry never enters a pair twice in the ledger. -/
theorem replayEntry_ledger_nodup (verdict : Nat → Nat → Option String) (budget : Nat) :
    ∀ (e : QueueEntry) (st : ReplayState), st.ledger.Nodup →
      (replayEntry verdict e budget st).ledger.Nodup := by
  induction budget with
  | zero => intro e st h; simpa [replayEntry] using h
  | succ b ih =>
    intro e st h
    cases hv : verdict e.localId e.attemptCount with
    | none =>
      by_cases hk : keyOf e.record ∈ st.ledger
      · simp [replayEntry, hv, hk, h]
      · simp [replayEntry, hv, hk, h, List.nodup_append]
    | some reason =>
      simp only [replayEntry, hv]
      exact ih _ _ h

/-- The replay of an entry keeps no Pending entry. -/
theorem replayEntry_kept (verdict : Nat → Nat → Option String) (budget : Nat) :
    ∀ (e : QueueEntry) (st : ReplayState), (∀ x ∈ st.kept, x.syncState ≠ .pending) →
      ∀ x ∈ (replayEntry verdict e budget st).kept, x.syncState ≠ .pending := by
  induction budget with
  | zero =>
    intro e st h x hx
    simp only [replayEntry, List.mem_append, List.mem_singleton] at hx
    rcases hx with hx | hx
    · exact h x hx
    · rw [hx]
      simp
  | succ b ih =>
    intro e st h
    cases hv : verdict e.localId e.attemptCount with
    | none => simpa [replayEntry, hv] using h
    | some reason =>
      simp only [replayEntry, hv]
      exact ih _ _ h

/-- A pass never enters a pair twice in the ledger and keeps no Pending entry. -/
theorem replayFrom_wellFormed (maxAttempts : Nat) (verdict : Nat → Nat → Option String)
    (l : List QueueEntry) :
    ∀ st, st.ledger.Nodup → (∀ x ∈ st.kept, x.syncState ≠ .pending) →
      (replayFrom maxAttempts verdict l st).ledger.Nodup ∧
        ∀ x ∈ (replayFrom maxAttempts verdict l st).kept, x.syncState ≠ .pending := by
  induction l with
  | nil => intro st h1 h2; exact ⟨h1, h2⟩
  | cons e rest ih =>
    intro st h1 h2
    by_cases hp : e.syncState = .pending
    · simp only [replayFrom, hp, if_true]
      exact ih _ (replayEntry_ledger_nodup verdict _ e st h1) (replayEntry_kept verdict _ e st h2)
    · simp only [replayFrom, hp, if_false]
      refine ih _ h1 ?_
      intro x hx
      simp only [List.mem_append, List.mem_singleton] at hx
      rcases hx with hx | hx
      · exact h2 x hx
      · rw [hx]
        exact hp

/-- Every event keeps the world well formed. -/
theorem worldStep_wellFormed (w : World) (ev : WorldEvent) (h : w.wellFormed) :
    (worldStep w ev).1.wellFormed := by
  cases ev with
  | ui ev => exact uiStep_wellFormed w ev h
  | replay maxAttempts verdict =>
    have hr := replayFrom_wellFormed maxAttempts verdict w.queue.entries
      { kept := [], synced := w.queue.synced, ledger := w.ledger, trace := [] } h.1
      (by simp)
    refine ⟨hr.1, ?_⟩
    have hnone : (List.filter (fun e => decide (e.syncState = .pending))
        (replayPass maxAttempts verdict w.queue w.ledger).kept) = [] := by
      rw [List.filter_eq_nil_iff]
      intro x hx
      simpa using hr.2 x hx
    simp [worldStep, Queue.pendingKeys, hnone]

/-- Every run keeps the world well formed. -/
theorem worldRun_wellFormed (events : List WorldEvent) :
    ∀ w : World, w.wellFormed → (worldRun w events).1.wellFormed := by
  induction events with
  | nil => intro w h; exact h
  | cons ev rest ih => intro w h; exact ih _ (worldStep_wellFormed w ev h)

/-- For a valid result with token and subject that passes the group check, the effect is
the recording handler. -/
theorem validationEffect_valid (s : Screen) (env : RecordEnv) (r : ValidationResult)
    (token : String) (anak : Anak) (hv : r.valid = true) (ht : r.token = some token)
    (ha : r.anak = some anak)
    (hb : (s.isBimbelActivity && decide (s.kelompokStudentIds.length > 0)
      && !s.kelompokStudentIds.contains anak.id_anak) = false) :
    validationEffect { s with validationResult := some r } env
      = handleAttendanceRecording s.isConnected s.id_aktivitas (some r) env token
          anak.id_anak := by
  simp only [validationEffect, hv, ht, ha, hb]
  simp

/-- The recording handler starts with its recording operation, however the operation
settles: the submission when it sees online, the hand-over to the queue otherwise. -/
theorem handleAttendanceRecording_find (c : Bool) (id : Option Nat)
    (vr : Option ValidationResult) (env : RecordEnv) (token : String) (id_anak : Nat) :
    (handleAttendanceRecording c id vr env token id_anak).find? Effect.isRecording
      = some (if c then
          .dispatchRecordAttendanceByQr
            { id_anak := id_anak, id_aktivitas := id, status := none, token := token,
              arrival_time := env.formattedArrivalTime }
        else
          .offlineProcessAttendance
            (.participant
              { id_anak := id_anak, id_aktivitas := id, status := none, token := token,
                arrival_time := env.formattedArrivalTime }) "qr") := by
  rcases env with ⟨t, sub, off⟩
  cases c <;> cases sub <;> cases off <;>
    simp [handleAttendanceRecording, Effect.isRecording, Effect.isSubmission,
      Effect.isEnqueue]

/-- A validated participant in the world: the recording operation is settled by the
ledger or the queue, and the handler runs with that settlement. -/
theorem uiStep_validated (w : World) (env : RecordEnv) (r : ValidationResult)
    (token : String) (anak : Anak) (hv : r.valid = true) (ht : r.token = some token)
    (ha : r.anak = some anak)
    (hb : (w.screen.isBimbelActivity && decide (w.screen.kelompokStudentIds.length > 0)
      && !w.screen.kelompokStudentIds.contains anak.id_anak) = false)
    (op : Effect)
    (hop : op = if w.screen.isConnected then
          .dispatchRecordAttendanceByQr
            { id_anak := anak.id_anak, id_aktivitas := w.screen.id_aktivitas,
              status := none, token := token, arrival_time := env.formattedArrivalTime }
        else
          .offlineProcessAttendance
            (.participant
              { id_anak := anak.id_anak, id_aktivitas := w.screen.id_aktivitas,
                status := none, token := token,
                arrival_time := env.formattedArrivalTime }) "qr") :
    uiStep w (.storeValidationResult (some r) env)
      = ({ (commit w env op).1 with screen := { w.screen with validationResult := some r } },
         handleAttendanceRecording w.screen.isConnected w.screen.id_aktivitas (some r)
           { env with
             submit := (commit w env op).2
             offline :=
               match (commit w env op).2 with
               | .fulfilled _ => .fulfilled ()
               | .rejected e => .rejected e }
           token anak.id_anak) := by
  have hstep : ∀ env', step w.screen (.storeValidationResult (some r) env')
      = ({ w.screen with validationResult := some r },
         handleAttendanceRecording w.screen.isConnected w.screen.id_aktivitas (some r) env'
           token anak.id_anak) := by
    intro env'
    show (_, validationEffect _ env') = _
    rw [validationEffect_valid w.screen env' r token anak hv ht ha hb]
  unfold uiStep
  simp only [withOutcome, recordEnvOf]
  rw [hstep env]
  simp only [handleAttendanceRecording_find, ← hop]
  rw [hstep]

/-! ## Claims on the world -/

/-- C11, counterexample.  Participant 1 was scanned while the monitor reported offline, so
the queue holds a Pending entry for the pair; the monitor then reports online and the
participant is scanned again: the recorder submits to the authority, which accepts, and
no duplicate error arises. -/
theorem online_scan_ignores_pending_entry :
    (worldRun (World.initial undatedScreen) offlineThenOnline).1.queue.hasLive sampleKey
        = true ∧
      (worldStep (worldRun (World.initial undatedScreen) offlineThenOnline).1
          validatedScan).2
        = [.dispatchRecordAttendanceByQr
             { id_anak := 1, id_aktivitas := some 7, status := none, token := "T1",
               arrival_time := "2024-01-10 08:30:00" },
           .playSound,
           .showToast "Present: Student" .success] := by
  decide

/-- C11, as amended.  For a validated participant that passes the group check: when the
screen sees online, the recorder starts with the submission to the authority and leaves
the queue as it is, whatever the queue holds; when the screen sees offline, the local
store accepts writes and a Pending or Synced local entry exists for the pair, the only
effect is the call of `OfflineSync.processAttendance`, which is answered with the
duplicate error: no toast, no submission, the queue and the ledger unchanged. -/
theorem local_check_only_offline (w : World) (env : RecordEnv) (r : ValidationResult)
    (token : String) (anak : Anak) (hv : r.valid = true) (ht : r.token = some token)
    (ha : r.anak = some anak)
    (hb : (w.screen.isBimbelActivity && decide (w.screen.kelompokStudentIds.length > 0)
      && !w.screen.kelompokStudentIds.contains anak.id_anak) = false) :
    (w.screen.isConnected = true →
      (uiStep w (.storeValidationResult (some r) env)).2.head?
        = some (.dispatchRecordAttendanceByQr
            { id_anak := anak.id_anak, id_aktivitas := w.screen.id_aktivitas,
              status := none, token := token, arrival_time := env.formattedArrivalTime }) ∧
      (uiStep w (.storeValidationResult (some r) env)).1.queue = w.queue) ∧
    (w.screen.isConnected = false → env.offline = .fulfilled () →
      w.queue.hasLive
        { subject := .participant anak.id_anak, id_aktivitas := w.screen.id_aktivitas }
        = true →
      (uiStep w (.storeValidationResult (some r) env)).2
        = [.offlineProcessAttendance
            (.participant
              { id_anak := anak.id_anak, id_aktivitas := w.screen.id_aktivitas,
                status := none, token := token,
                arrival_time := env.formattedArrivalTime }) "qr"] ∧
      (uiStep w (.storeValidationResult (some r) env)).1.queue = w.queue ∧
      (uiStep w (.storeValidationResult (some r) env)).1.ledger = w.ledger) := by
  constructor
  · intro hc
    rw [uiStep_validated w env r token anak hv ht ha hb _ rfl]
    simp only [hc, if_true]
    refine ⟨?_, rfl⟩
    cases hcm : (commit w env
        (.dispatchRecordAttendanceByQr
          { id_anak := anak.id_anak, id_aktivitas := w.screen.id_aktivitas, status := none,
            token := token, arrival_time := env.formattedArrivalTime })).2 <;>
      simp [handleAttendanceRecording]
  · intro hc hoff hlive
    rw [uiStep_validated w env r token anak hv ht ha hb _ rfl]
    have hcommit : commit w env
        (.offlineProcessAttendance
          (.participant
            { id_anak := anak.id_anak, id_aktivitas := w.screen.id_aktivitas,
              status := none, token := token,
              arrival_time := env.formattedArrivalTime }) "qr")
        = (w, .rejected duplicateError) := by
      simp [commit, hoff, processAttendance, keyOf, hlive]
    simp only [hc, Bool.false_eq_true, if_false, hcommit]
    simp [handleAttendanceRecording, recordingCatch, duplicateError]

/-- C11, witness: participant 1, already queued, is scanned again while the monitor
still reports offline. -/
theorem local_check_only_offline_witness :
    queuedWorld.screen.isConnected = false ∧
      queuedWorld.queue.hasLive sampleKey = true ∧
      (uiStep queuedWorld (.storeValidationResult (some sampleValidation) sampleRecordEnv)).2
        = [.offlineProcessAttendance
            (.participant
              { id_anak := 1, id_aktivitas := some 7, status := none, token := "T1",
                arrival_time := "2024-01-10 08:30:00" }) "qr"] ∧
      (uiStep queuedWorld
        (.storeValidationResult (some sampleValidation) sampleRecordEnv)).1.queue
        = queuedWorld.queue ∧
      (uiStep queuedWorld
        (.storeValidationResult (some sampleValidation) sampleRecordEnv)).1.ledger
        = queuedWorld.ledger :=
  ⟨by decide, by decide,
    (local_check_only_offline queuedWorld sampleRecordEnv sampleValidation "T1"
      { id_anak := 1, full_name := none } rfl rfl rfl (by decide)).2
      (by decide) rfl (by decide)⟩

/-- C12, counterexample.  Participant 1 is scanned while the monitor reports offline, the
monitor then reports online, and the participant is scanned again before the queue is
replayed: the queue holds a Pending record for the pair and the ledger holds an accepted
record for the same pair. -/
theorem pending_and_accepted_coexist :
    (worldRun (World.initial undatedScreen)
        (offlineThenOnline ++ [validatedScan])).1.queue.pendingKeys.count sampleKey = 1 ∧
      (worldRun (World.initial undatedScreen)
        (offlineThenOnline ++ [validatedScan])).1.ledger.count sampleKey = 1 := by
  decide

/-- C12, as amended.  After every sequence of screen events and replay passes, starting
from a fresh installation, the ledger holds at most one record for a pair and the queue
holds at most one Pending entry for a pair.  In particular, when the same participant is
scanned twice while the monitor reports offline, the second hand-over is answered with the
duplicate error, shows nothing, and the queue keeps exactly one Pending entry.  A replay
attempt that reaches the authority for a pair the ledger already holds adds nothing to the
ledger, and the entry leaves the queue with its pair noted as synced; so after the scan
while offline, the scan while online and a replay pass, the ledger holds the one record
of the pair and the queue is empty. -/
theorem one_record_per_store (screen : Screen) (events : List WorldEvent) (k : RecordKey) :
    (worldRun (World.initial screen) events).1.ledger.count k ≤ 1 ∧
      (worldRun (World.initial screen) events).1.queue.pendingKeys.count k ≤ 1 ∧
      (processAttendance queuedWorld.queue
          (.participant
            { id_anak := 1, id_aktivitas := some 7, status := none, token := "T1",
              arrival_time := "2024-01-10 08:30:00" }) "qr").2
        = .rejected duplicateError ∧
      (worldStep queuedWorld validatedScan).2
        = [.offlineProcessAttendance
            (.participant
              { id_anak := 1, id_aktivitas := some 7, status := none, token := "T1",
                arrival_time := "2024-01-10 08:30:00" }) "qr"] ∧
      (worldStep queuedWorld validatedScan).1.queue.pendingKeys = [sampleKey] ∧
      (∀ (verdict : Nat → Nat → Option String) (e : QueueEntry) (budget : Nat)
          (st : ReplayState),
        verdict e.localId e.attemptCount = none →
        st.ledger.contains (keyOf e.record) = true →
        replayEntry verdict e (budget + 1) st
          = { st with
              synced := st.synced ++ [keyOf e.record]
              trace := st.trace ++ [(e.localId, e.attemptCount)] }) ∧
      (worldRun (World.initial undatedScreen)
          (offlineThenOnline ++ [validatedScan, .replay 3 getsThrough])).1.ledger
        = [sampleKey] ∧
      (worldRun (World.initial undatedScreen)
          (offlineThenOnline ++ [validatedScan, .replay 3 getsThrough])).1.queue.entries
        = [] ∧
      (worldRun (World.initial undatedScreen)
          (offlineThenOnline ++ [validatedScan, .replay 3 getsThrough])).1.queue.synced
        = [sampleKey] := by
  have h := worldRun_wellFormed events (World.initial screen)
    ⟨List.nodup_nil, List.nodup_nil⟩
  refine ⟨List.nodup_iff_count_le_one.mp h.1 k, List.nodup_iff_count_le_one.mp h.2 k,
    by decide, by decide, by decide, ?_, by decide, by decide, by decide⟩
  intro verdict e budget st hv hl
  simp only [replayEntry, hv, hl, if_true]

end OfflineSync

namespace QrScannerScreen

/-! ## Claims, third part -/

/-- C24.  Without an activity date the gate answers `unknown`, whatever the time; and in
that state a scan with an activity selected and no scan in progress is `proceedWithScan`
itself: no alert, no dialog. -/
theorem unknown_date_is_not_gated (tz now : Int) (s : Screen) (env : ScanEnv)
    (qrData : QrData) (hs : s.activityDateStatus = .unknown)
    (hi : truthyId s.id_aktivitas = true) (hp : s.isProcessing = false) :
    validateActivityDate tz .falsy now = .unknown ∧
      handleScan s env qrData = proceedWithScan s env qrData := by
  refine ⟨rfl, ?_⟩
  simp [handleScan, hs, hi, hp]

/-- C24, witness: the screen opened without a date, and a participant scan. -/
theorem unknown_date_is_not_gated_witness :
    undatedScreen.activityDateStatus = .unknown ∧
      validateActivityDate sampleZone .falsy sampleNow = .unknown ∧
      handleScan undatedScreen participantScanEnv sampleQr
        = proceedWithScan undatedScreen participantScanEnv sampleQr :=
  ⟨by decide,
    unknown_date_is_not_gated sampleZone sampleNow undatedScreen participantScanEnv sampleQr
      (by decide) (by decide) (by decide)⟩

/-- C25.  For a Bimbel activity and a validated participant: when the loaded list of
active members is non-empty and the participant is not in it, the effect only shows the
error toast and records nothing; when the participant is in the list, or the list is
empty, the effect is the recording handler, which always performs a recording operation.
The loaded list is the `id_anak` of the members whose `status_validasi` is 'aktif', and
the empty list when the request fails. -/
theorem bimbel_membership_gate (s : Screen) (env : RecordEnv) (r : ValidationResult)
    (token : String) (anak : Anak) (hv : r.valid = true) (ht : r.token = some token)
    (ha : r.anak = some anak) (hb : s.isBimbelActivity = true) :
    (s.kelompokStudentIds ≠ [] → anak.id_anak ∉ s.kelompokStudentIds →
      validationEffect { s with validationResult := some r } env
          = [.showToast
              ("Student not in the " ++ orElse s.kelompokName "selected" ++ " group")
              .error] ∧
        (validationEffect { s with validationResult := some r } env).any Effect.isRecording
          = false) ∧
    (anak.id_anak ∈ s.kelompokStudentIds ∨ s.kelompokStudentIds = [] →
      validationEffect { s with validationResult := some r } env
          = handleAttendanceRecording s.isConnected s.id_aktivitas (some r) env token
              anak.id_anak ∧
        (validationEffect { s with validationResult := some r } env).any Effect.isRecording
          = true) ∧
    (∀ prev kelompokId children, truthyId kelompokId = true →
      fetchKelompokStudents prev kelompokId (.resolved (some children))
          = (children.filter fun c => c.status_validasi = some "aktif").map
              (fun c => c.id_anak) ∧
        fetchKelompokStudents prev kelompokId .rejected = []) := by
  have hrec : (handleAttendanceRecording s.isConnected s.id_aktivitas (some r) env token
      anak.id_anak).any Effect.isRecording = true := by
    rcases env with ⟨t, sub, off⟩
    cases s.isConnected <;> cases sub <;> cases off <;>
      simp [handleAttendanceRecording, Effect.isRecording, Effect.isSubmission,
        Effect.isEnqueue]
  refine ⟨?_, ?_, ?_⟩
  · intro hne hnot
    have hlen : 0 < s.kelompokStudentIds.length := List.length_pos.mpr hne
    have heq : validationEffect { s with validationResult := some r } env
        = [.showToast
            ("Student not in the " ++ orElse s.kelompokName "selected" ++ " group")
            .error] := by
      simp [validationEffect, hv, ht, ha, hb, hlen, hnot]
    rw [heq]
    exact ⟨rfl, rfl⟩
  · intro hcase
    have hskip : (s.isBimbelActivity && decide (s.kelompokStudentIds.length > 0)
        && !s.kelompokStudentIds.contains anak.id_anak) = false := by
      rcases hcase with hmem | hnil
      · simp [hmem]
      · simp [hnil]
    have heq : validationEffect { s with validationResult := some r } env
        = handleAttendanceRecording s.isConnected s.id_aktivitas (some r) env token
            anak.id_anak := by
      simp only [validationEffect, hv, ht, ha, hskip]
      simp
    rw [heq]
    exact ⟨rfl, hrec⟩
  · intro prev kelompokId children hk
    simp [fetchKelompokStudents, hk]

/-- C25, witness: in a Bimbel activity whose active members are 2 and 3, participant 1 is
validated: the toast is shown and nothing is recorded. -/
theorem bimbel_membership_gate_witness :
    bimbelScreen.kelompokStudentIds = [2, 3] ∧
      validationEffect { bimbelScreen with validationResult := some sampleValidation }
          sampleRecordEnv
        = [.showToast "Student not in the A group" .error] ∧
      (validationEffect { bimbelScreen with validationResult := some sampleValidation }
        sampleRecordEnv).any Effect.isRecording = false :=
  ⟨by decide,
    (bimbel_membership_gate bimbelScreen sampleRecordEnv sampleValidation "T1"
      { id_anak := 1, full_name := none } rfl rfl rfl rfl).1 (by decide) (by decide)⟩

/-- C29.  For the same subject, activity, token and formatted time, the one participant
record the handler submits when it sees online and the one it hands to the offline queue
when it sees offline are the same record, with status null; the online path queues
nothing and the offline path submits nothing. -/
theorem queued_record_equals_submitted (id : Option Nat) (vr : Option ValidationResult)
    (env : RecordEnv) (token : String) (id_anak : Nat) :
    submittedRecords (handleAttendanceRecording true id vr env token id_anak)
        = [{ id_anak := id_anak, id_aktivitas := id, status := none, token := token,
             arrival_time := env.formattedArrivalTime }] ∧
      queuedRecords (handleAttendanceRecording false id vr env token id_anak)
        = [{ id_anak := id_anak, id_aktivitas := id, status := none, token := token,
             arrival_time := env.formattedArrivalTime }] ∧
      queuedRecords (handleAttendanceRecording true id vr env token id_anak) = [] ∧
      submittedRecords (handleAttendanceRecording false id vr env token id_anak) = [] ∧
      (handleAttendanceRecording false id vr env token id_anak).head?
        = some (.offlineProcessAttendance
            (.participant
              { id_anak := id_anak, id_aktivitas := id, status := none, token := token,
                arrival_time := env.formattedArrivalTime }) "qr") := by
  rcases env with ⟨t, sub, off⟩
  rcases sub with _ | ⟨_ | _, m⟩ <;> rcases off with _ | ⟨_ | _, m2⟩ <;>
    simp [handleAttendanceRecording, recordingCatch, submittedRecords, queuedRecords]

end QrScannerScreen

namespace SuperAdminUserFormScreen

/-- C23.  With five different role constants, `validateProfile` returns no error exactly
when: for Admin Pusat, the full name, the address and the phone number are non-blank
after trimming; for Admin Cabang, these and a selected branch; for Admin Shelter, these,
a selected branch, a selected wilbin and a selected shelter; for Super Admin and Donatur
it never returns an error.  `handleSubmit` calls the update API exactly when the account
is not the user's own, a role is selected and `validateProfile` returns no error. -/
theorem validateProfile_complete (roles : UserRoles) (f : FormState)
    (authUser : Option AuthUser) (userId : Option JsId) (outcome : UpdateOutcome)
    (hd : roles.pairwiseDistinct) :
    (f.role = roles.ADMIN_PUSAT → (validateProfile roles f = [] ↔ textFilled f)) ∧
    (f.role = roles.ADMIN_CABANG →
      (validateProfile roles f = [] ↔ textFilled f ∧ f.selectedKacab ≠ "")) ∧
    (f.role = roles.ADMIN_SHELTER →
      (validateProfile roles f = [] ↔
        textFilled f ∧ f.selectedKacab ≠ "" ∧ f.selectedWilbin ≠ "" ∧
          f.selectedShelter ≠ "")) ∧
    (f.role = roles.SUPER_ADMIN ∨ f.role = roles.DONATUR → validateProfile roles f = []) ∧
    ((handleSubmit roles authUser userId f outcome).2.any FormEffect.isUpdate = true ↔
      isSelfModification authUser userId = false ∧ f.role ≠ "" ∧
        validateProfile roles f = []) := by
  simp only [UserRoles.pairwiseDistinct, List.nodup_cons, List.mem_cons, List.mem_singleton,
    List.not_mem_nil, or_false, not_or, List.nodup_nil, and_true] at hd
  obtain ⟨⟨h12, h13, h14, h15⟩, ⟨h23, h24, h25⟩, ⟨h34, h35⟩, h45, _⟩ := hd
  refine ⟨?_, ?_, ?_, ?_, ?_⟩
  · intro hr
    simp [validateProfile, requiresProfileFields, requiresCabang, requiresWilbin,
      requiresShelter, textFilled, hr, h23, h24]
  · intro hr
    simp [validateProfile, requiresProfileFields, requiresCabang, requiresWilbin,
      requiresShelter, textFilled, hr, h34, Ne.symm h23]
    tauto
  · intro hr
    simp [validateProfile, requiresProfileFields, requiresCabang, requiresWilbin,
      requiresShelter, textFilled, hr, Ne.symm h24, Ne.symm h34]
    tauto
  · intro hr
    rcases hr with hr | hr
    · simp [validateProfile, requiresProfileFields, requiresCabang, requiresWilbin,
        requiresShelter, hr, h12, h13, h14]
    · simp [validateProfile, requiresProfileFields, requiresCabang, requiresWilbin,
        requiresShelter, hr, Ne.symm h25, Ne.symm h35, Ne.symm h45]
  · unfold handleSubmit
    cases hs : isSelfModification authUser userId
    · by_cases hrole : f.role = ""
      · simp [hrole, FormEffect.isUpdate]
      · by_cases hv : validateProfile roles f = []
        · cases outcome <;> simp [hrole, hv, FormEffect.isUpdate]
        · have hlen : 0 < (validateProfile roles f).length := List.length_pos.mpr hv
          simp [hrole, hv, hlen, FormEffect.isUpdate]
    · simp [FormEffect.isUpdate]

/-- C23, witness: with the sample role constants, an Admin Shelter form with every
required field filled has no error, and submitting it for another user calls the update
API. -/
theorem validateProfile_complete_witness :
    sampleRoles.pairwiseDistinct ∧ textFilled shelterForm ∧
      validateProfile sampleRoles shelterForm = [] ∧
      (handleSubmit sampleRoles (some sampleAuthUser) (some (.num 6)) shelterForm
        (.rejected none)).2.any FormEffect.isUpdate = true :=
  have hd : sampleRoles.pairwiseDistinct := by unfold UserRoles.pairwiseDistinct; decide
  have ht : textFilled shelterForm := by unfold textFilled; decide
  have h := validateProfile_complete sampleRoles shelterForm (some sampleAuthUser)
    (some (.num 6)) (.rejected none) hd
  ⟨hd, ht, (h.2.2.1 rfl).mpr ⟨ht, by decide⟩,
    h.2.2.2.2.mpr ⟨by decide, by decide, (h.2.2.1 rfl).mpr ⟨ht, by decide⟩⟩⟩

end SuperAdminUserFormScreen

namespace KeluargaFormScreen

/-! ## Lemmas on the step navigation -/

/-- Only the steps 0 to 10 can be valid. -/
theorem validateStep_le (step : Nat) (data : FormData)
    (h : validateStep step data = true) : step ≤ REVIEW := by
  unfold validateStep at h
  unfold REVIEW
  split at h <;> first | omega | simp at h

/-- After `updateStepValidity` the step holds the value written. -/
theorem isValidStep_update (stepsValid : StepsValid) (step : Nat) (isValid : Bool) :
    isValidStep (updateStepValidity stepsValid step isValid) step = isValid := by
  unfold updateStepValidity isValidStep
  by_cases hany : stepsValid.any (fun e => decide (e.1 = step)) = true
  · rw [if_pos hany]
    have hfind : ∀ l : StepsValid, l.any (fun e => decide (e.1 = step)) = true →
        (l.map fun e => if e.1 = step then (step, isValid) else e).find?
          (fun e => decide (e.1 = step)) = some (step, isValid) := by
      intro l
      induction l with
      | nil => intro h; simp at h
      | cons e rest ih =>
        intro h
        by_cases he : e.1 = step
        · simp [he]
        · have hrest : rest.any (fun e => decide (e.1 = step)) = true := by
            simpa [he] using h
          simp [List.find?_cons, he, ih hrest]
    rw [hfind stepsValid hany]
  · rw [if_neg hany]
    have hnone : stepsValid.find? (fun e => decide (e.1 = step)) = none := by
      rw [List.find?_eq_none]
      intro e he hp
      apply hany
      rw [List.any_eq_true]
      exact ⟨e, he, hp⟩
    simp [List.find?_append, hnone]

/-- Writing a value that keeps REVIEW valid and marks no step above REVIEW valid. -/
theorem reviewOpen_update (stepsValid : StepsValid) (step : Nat) (isValid : Bool)
    (h : reviewOpen stepsValid) (h1 : isValid = true → step ≤ REVIEW)
    (h2 : step = REVIEW → isValid = true) :
    reviewOpen (updateStepValidity stepsValid step isValid) := by
  unfold updateStepValidity
  split
  · constructor
    · rw [List.mem_map]
      by_cases hs : REVIEW = step
      · exact ⟨(REVIEW, true), h.1, by simp [hs, h2 hs.symm]⟩
      · exact ⟨(REVIEW, true), h.1, by simp [hs]⟩
    · intro e he
      rw [List.mem_map] at he
      rcases he with ⟨e0, he0, rfl⟩
      by_cases hs : e0.1 = step
      · simp only [hs, if_true]
        exact ⟨h1, h2⟩
      · simp only [hs, if_false]
        exact h.2 e0 he0
  · constructor
    · exact List.mem_append_left _ h.1
    · intro e he
      rw [List.mem_append, List.mem_singleton] at he
      rcases he with he | rfl
      · exact h.2 e he
      · exact ⟨h1, h2⟩

/-- The fold of `goToStep` stays below a bound of the start value and of the keys. -/
theorem foldl_max_le (l : StepsValid) (bound : Int) :
    ∀ acc : Int, acc ≤ bound → (∀ e ∈ l, (e.1 : Int) ≤ bound) →
      l.foldl (fun highest e => max highest (e.1 : Int)) acc ≤ bound := by
  induction l with
  | nil => intro acc h _; simpa using h
  | cons e rest ih =>
    intro acc h hl
    simp only [List.foldl_cons]
    apply ih
    · exact max_le h (hl e (List.mem_cons_self _ _))
    · intro x hx
      exact hl x (List.mem_cons_of_mem _ hx)

/-- The fold of `goToStep` reaches the start value and every key. -/
theorem le_foldl_max (l : StepsValid) :
    ∀ acc : Int, acc ≤ l.foldl (fun highest e => max highest (e.1 : Int)) acc ∧
      ∀ e ∈ l, (e.1 : Int) ≤ l.foldl (fun highest e => max highest (e.1 : Int)) acc := by
  induction l with
  | nil => intro acc; simp
  | cons e rest ih =>
    intro acc
    simp only [List.foldl_cons]
    have h := ih (max acc (e.1 : Int))
    refine ⟨le_trans (le_max_left _ _) h.1, ?_⟩
    intro x hx
    rw [List.mem_cons] at hx
    rcases hx with rfl | hx
    · exact le_trans (le_max_right _ _) h.1
    · exact h.2 x hx

/-- With REVIEW valid and nothing above it, the highest valid step is REVIEW. -/
theorem highestCompletedStep_eq (stepsValid : StepsValid) (h : reviewOpen stepsValid) :
    highestCompletedStep stepsValid = 10 := by
  unfold highestCompletedStep
  apply le_antisymm
  · apply foldl_max_le
    · decide
    · intro e he
      rw [List.mem_filter] at he
      have := (h.2 e he.1).1 he.2
      unfold REVIEW at this
      omega
  · have hmem : ((REVIEW, true) : Nat × Bool) ∈ stepsValid.filter fun e => e.2 := by
      rw [List.mem_filter]
      exact ⟨h.1, rfl⟩
    have := (le_foldl_max (stepsValid.filter fun e => e.2) (-1)).2 _ hmem
    simpa [REVIEW] using this

/-- Every event keeps REVIEW valid and marks no step above REVIEW valid. -/
theorem formStep_reviewOpen (f : FormState) (ev : FormEvent)
    (h : reviewOpen f.stepsValid) : reviewOpen (formStep f ev).stepsValid := by
  cases ev with
  | handleChange data => exact h
  | goToNextStep =>
    have hu := reviewOpen_update f.stepsValid f.currentStep
      (validateStep f.currentStep f.formData) h (validateStep_le _ _)
      (fun hs => by rw [hs]; rfl)
    simp only [formStep, goToNextStep]
    split
    · split <;> exact hu
    · exact hu
  | goToPreviousStep =>
    simp only [formStep, goToPreviousStep]
    split <;> exact h
  | goToStep step =>
    simp only [formStep, goToStep]
    split <;> exact h
  | setStepValid step isValid =>
    have hlt := step.isLt
    exact reviewOpen_update _ _ _ h (fun _ => by unfold REVIEW; omega)
      (fun hs => by unfold REVIEW at hs; omega)
  | detailsLoaded data child education survey =>
    have hfold : ∀ (l : List (Nat × Bool)), (∀ e ∈ l, e.1 < 10) →
        ∀ sv : StepsValid, reviewOpen sv →
          reviewOpen (l.foldl (fun sv e => updateStepValidity sv e.1 e.2) sv) := by
      intro l
      induction l with
      | nil => intro _ sv hsv; exact hsv
      | cons e rest ih =>
        intro hl sv hsv
        have hk := hl e (List.mem_cons_self _ _)
        exact ih (fun x hx => hl x (List.mem_cons_of_mem _ hx)) _
          (reviewOpen_update sv e.1 e.2 hsv (fun _ => by unfold REVIEW; omega)
            (fun hs => by unfold REVIEW at hs; omega))
    apply hfold _ _ _ h
    intro e he
    simp only [List.mem_cons, List.mem_singleton, List.not_mem_nil, or_false] at he
    rcases he with rfl | rfl | rfl | rfl | rfl | rfl | rfl | rfl | rfl <;>
      simp [FAMILY, PARENTS, CHILD, EDUCATION, SURVEY_BASIC, SURVEY_FINANCIAL, SURVEY_ASSETS,
        SURVEY_HEALTH, SURVEY_RELIGIOUS]

/-- Every run keeps REVIEW valid and marks no step above REVIEW valid. -/
theorem formRun_reviewOpen (events : List FormEvent) :
    ∀ f : FormState, reviewOpen f.stepsValid → reviewOpen (formRun f events).stepsValid := by
  induction events with
  | nil => intro f h; exact h
  | cons ev rest ih => intro f h; exact ih _ (formStep_reviewOpen f ev h)

/-! ## Claims on the family form -/

/-- C22.  `goToNextStep` changes the current step only when `validateStep` accepts the
current step with the current form data; then the step is marked valid, no alert is shown
and the new step is GUARDIAN from a FAMILY step with status 'yatim piatu' and the next
step otherwise.  When `validateStep` refuses, the current step is unchanged, the step is
marked invalid and the alert is shown.  The form data are never changed.  For the FAMILY
step the required fields are a 16-character `no_kk`, `kepala_keluarga` and
`status_ortu`. -/
theorem goToNextStep_guarded (f : FormState) :
    ((goToNextStep f).1.currentStep ≠ f.currentStep →
      validateStep f.currentStep f.formData = true) ∧
    (validateStep f.currentStep f.formData = true →
      (goToNextStep f).1.currentStep
          = (if f.currentStep = FAMILY ∧ f.formData.status_ortu = "yatim piatu" then GUARDIAN
             else f.currentStep + 1) ∧
        isValidStep (goToNextStep f).1.stepsValid f.currentStep = true ∧
        (goToNextStep f).2 = []) ∧
    (validateStep f.currentStep f.formData = false →
      (goToNextStep f).1.currentStep = f.currentStep ∧
        isValidStep (goToNextStep f).1.stepsValid f.currentStep = false ∧
        (goToNextStep f).2
          = [.alert "Kesalahan Validasi"
              "Mohon lengkapi semua kolom yang wajib diisi sebelum melanjutkan."]) ∧
    (goToNextStep f).1.formData = f.formData ∧
    (validateStep FAMILY f.formData = true ↔
      f.formData.no_kk ≠ "" ∧ f.formData.no_kk.length = 16 ∧
        f.formData.kepala_keluarga ≠ "" ∧ f.formData.status_ortu ≠ "") := by
  have hup := isValidStep_update f.stepsValid f.currentStep
    (validateStep f.currentStep f.formData)
  refine ⟨?_, ?_, ?_, ?_, ?_⟩
  · intro hne
    by_contra hv
    apply hne
    simp [goToNextStep, hv]
  · intro hv
    rw [hv] at hup
    by_cases hc : f.currentStep = FAMILY ∧ f.formData.status_ortu = "yatim piatu"
    · have hc' : (decide (f.currentStep = FAMILY)
          && decide (f.formData.status_ortu = "yatim piatu")) = true := by
        simpa using hc
      rw [if_pos hc]
      simp only [goToNextStep, hv, hc', if_true]
      exact ⟨trivial, hup, trivial⟩
    · have hc' : (decide (f.currentStep = FAMILY)
          && decide (f.formData.status_ortu = "yatim piatu")) = false := by
        simpa using hc
      rw [if_neg hc]
      simp only [goToNextStep, hv, hc', if_true, if_false, Bool.false_eq_true]
      exact ⟨trivial, hup, trivial⟩
  · intro hv
    rw [hv] at hup
    simp only [goToNextStep, hv, Bool.false_eq_true, if_false]
    exact ⟨trivial, hup, trivial⟩
  · simp only [goToNextStep]
    split
    · split <;> rfl
    · rfl
  · simp [validateStep, FAMILY, filled, and_assoc]

/-- C26.  In every state reached from the first render, whatever the form data and
whatever the events, REVIEW is marked valid and the highest valid step is 10, so
`goToStep` sets the current step to any step from 0 to 10, whether or not the earlier
steps are valid. -/
theorem goToStep_never_blocks (data : FormData) (events : List FormEvent) (step : Fin 11) :
    isValidStep (formRun (initialState data) events).stepsValid REVIEW = true ∧
      highestCompletedStep (formRun (initialState data) events).stepsValid = 10 ∧
      (goToStep (formRun (initialState data) events) step.val).currentStep = step.val ∧
      (goToStep (initialState data) REVIEW).currentStep = REVIEW ∧
      isValidStep (initialState data).stepsValid FAMILY = false := by
  have h0 : reviewOpen (initialState data).stepsValid := by
    show reviewOpen initialStepsValid
    unfold reviewOpen initialStepsValid
    decide
  have hi : highestCompletedStep initialStepsValid = 10 := by decide
  have hg : (goToStep (initialState data) REVIEW).currentStep = REVIEW := by
    simp [goToStep, initialState, hi, REVIEW]
  have hfam : isValidStep (initialState data).stepsValid FAMILY = false := by
    show isValidStep initialStepsValid FAMILY = false
    decide
  have h := formRun_reviewOpen events (initialState data) h0
  have hh := highestCompletedStep_eq _ h
  have hlt := step.isLt
  refine ⟨?_, hh, ?_, hg, hfam⟩
  · unfold isValidStep
    cases hf : (formRun (initialState data) events).stepsValid.find?
        (fun e => decide (e.1 = REVIEW)) with
    | none =>
      rw [List.find?_eq_none] at hf
      exact absurd (by simp) (hf _ h.1)
    | some e =>
      have hmem := List.mem_of_find?_eq_some hf
      have hp := List.find?_some hf
      exact (h.2 e hmem).2 (by simpa using hp)
  · unfold goToStep
    rw [hh, if_pos (by omega)]

/-- C27.  With status 'yatim piatu': from a valid FAMILY step `goToNextStep` moves to
GUARDIAN and `goToPreviousStep` then moves back to FAMILY; from a step other than PARENTS
neither function ever moves to PARENTS.  In every state other than GUARDIAN with status
'yatim piatu', `goToPreviousStep` moves to the maximum of 0 and the step minus 1. -/
theorem orphan_skips_parents (f : FormState)
    (hs : f.formData.status_ortu = "yatim piatu") (hc : f.currentStep = FAMILY)
    (hv : validateStep FAMILY f.formData = true) :
    (goToNextStep f).1.currentStep = GUARDIAN ∧
      (goToPreviousStep (goToNextStep f).1).currentStep = FAMILY ∧
      (∀ g : FormState, g.formData.status_ortu = "yatim piatu" → g.currentStep ≠ PARENTS →
        (goToNextStep g).1.currentStep ≠ PARENTS ∧
          (goToPreviousStep g).currentStep ≠ PARENTS) ∧
      (∀ g : FormState,
        ¬ (g.currentStep = GUARDIAN ∧ g.formData.status_ortu = "yatim piatu") →
        ((goToPreviousStep g).currentStep : Int) = max 0 ((g.currentStep : Int) - 1)) := by
  have hnext : (goToNextStep f).1 =
      { f with
        stepsValid := updateStepValidity f.stepsValid FAMILY true
        currentStep := GUARDIAN } := by
    simp [goToNextStep, hc, hs, hv]
  refine ⟨by rw [hnext], ?_, ?_, ?_⟩
  · rw [hnext]
    simp [goToPreviousStep, hs]
  · intro g hg hne
    constructor
    · unfold goToNextStep
      cases hvg : validateStep g.currentStep g.formData
      · simpa using hne
      · by_cases h0 : g.currentStep = FAMILY
        · simp [h0, hg, GUARDIAN, PARENTS]
        · have h0' : g.currentStep ≠ 0 := h0
          simp [h0, PARENTS]
          exact h0'
    · unfold goToPreviousStep
      by_cases h2 : g.currentStep = GUARDIAN
      · simp [h2, hg, FAMILY, PARENTS]
      · have h2' : g.currentStep ≠ 2 := h2
        have h1' : g.currentStep ≠ 1 := hne
        simp [h2, PARENTS]
        omega
  · intro g hg
    have hcond : (decide (g.currentStep = GUARDIAN)
        && decide (g.formData.status_ortu = "yatim piatu")) = false := by
      simpa using hg
    simp only [goToPreviousStep, hcond, Bool.false_eq_true, if_false]
    omega

/-- C27, witness: an orphan's family with the family step filled, on the first render. -/
theorem orphan_skips_parents_witness :
    validateStep FAMILY orphanData = true ∧
      (goToNextStep (initialState orphanData)).1.currentStep = GUARDIAN ∧
      (goToPreviousStep (goToNextStep (initialState orphanData)).1).currentStep = FAMILY :=
  ⟨by decide,
    (orphan_skips_parents (initialState orphanData) rfl rfl (by decide)).1,
    (orphan_skips_parents (initialState orphanData) rfl rfl (by decide)).2.1⟩

end KeluargaFormScreen

namespace RootReducer

/-- C28.  For an action of type 'auth/logout/fulfilled' `rootReducer` returns what the
combined reducer returns from the undefined state, whatever the prior state; for an action
of any other type it returns what the combined reducer returns from the prior state. -/
theorem rootReducer_resets_on_logout {σ π : Type} (appReducer : Option σ → Action π → σ)
    (state other : Option σ) (action : Action π) :
    (action.type = "auth/logout/fulfilled" →
      rootReducer appReducer state action = appReducer none action ∧
        rootReducer appReducer state action = rootReducer appReducer other action) ∧
    (action.type ≠ "auth/logout/fulfilled" →
      rootReducer appReducer state action = appReducer state action) ∧
    rootReducer counterReducer (some 5) { type := "auth/logout/fulfilled", payload := () }
      = 0 ∧
    rootReducer counterReducer (some 5) { type := "tick", payload := () } = 6 := by
  refine ⟨?_, ?_, by decide, by decide⟩
  · intro h
    simp [rootReducer, h]
  · intro h
    simp [rootReducer, h]

end RootReducer

namespace OfflineSync

open QrScannerScreen

/-! ## Claims on the derived status -/

/-- For an activity scheduled on a day before the day of arrival the derived status is
Absent, and both handlers show Absent with type error after the accepted submission. -/
theorem earlier_day_record_is_absent (tz scheduled threshold arrival : Int)
    (formatted : String) (id : Option Nat) (vr : Option ValidationResult) (token : String)
    (id_anak : Nat) (hday : localDay tz scheduled < localDay tz arrival) :
    derivedStatus tz scheduled threshold arrival = .absent ∧
      (handleAttendanceRecording true id vr
          (authorityEnv tz scheduled threshold arrival formatted) token id_anak).getLast?
        = some (.showToast
            ("Absent" ++ ": "
              ++ orElse ((vr.bind fun r => r.anak).bind fun a => a.full_name) "Student")
            .error) ∧
      (handleTutorAttendanceRecording true id
          (authorityEnv tz scheduled threshold arrival formatted) token).getLast?
        = some (.showToast ("Absent" ++ ": " ++ "Tutor" ++ " (Tutor)") .error) := by
  have hd : derivedStatus tz scheduled threshold arrival = .absent := by
    simp [derivedStatus, hday]
  refine ⟨hd, ?_, ?_⟩
  · simp [handleAttendanceRecording, authorityEnv, answerEnv, hd, absenOf, presence]
  · simp [handleTutorAttendanceRecording, authorityEnv, answerEnv, hd, absenOf, presence,
      orElse]

/-- C6.  Evaluation at the failing input.  The sample activity is dated 2024-01-10 and the
screen is opened at 08:30 on that day: the gate classifies the activity `past`, the user
presses Continue in the dialog that says attendance will be marked as absent, the probe
answers that the token is not an instructor token and the validation result arrives.  The
record submitted carries status null and the arrival time, as for any other activity; the
status derived for an activity scheduled today and an arrival before the threshold of
09:00 is OnTime, and the status shown is Present.  Whatever the authority answers, the
run is the dialog followed by the run of the same screen in state `valid`, so the
authority receives the request it receives for an activity the gate lets through; and the
status shown is Absent only when the answer's `absen` is 'Tidak'. -/
theorem today_confirmed_scan_is_not_absent :
    localDay sampleZone sampleActivityDate = localDay sampleZone sampleNow ∧
      (sampleScreen sampleNow).activityDateStatus = .past ∧
      pressedText (pastActivityButtons sampleQr) participantScanEnv.pressed
        = some "Continue" ∧
      derivedStatus sampleZone sampleActivityDate sampleThreshold sampleNow = .onTime ∧
      (run (sampleScreen sampleNow)
          [.scan sampleQr participantScanEnv,
           .storeValidationResult (some sampleValidation)
             (authorityEnv sampleZone sampleActivityDate sampleThreshold sampleNow
               "2024-01-10 08:30:00")]).2
        = [.alert "Past Activity"
             "This activity was in the past. Attendance will be marked as absent."
             (pastActivityButtons sampleQr),
           .validateTutorToken "T1",
           .dispatchValidateToken "T1",
           .dispatchRecordAttendanceByQr
             { id_anak := 1, id_aktivitas := some 7, status := none, token := "T1",
               arrival_time := "2024-01-10 08:30:00" },
           .playSound,
           .showToast "Present: Student" .success] ∧
      (∀ absen : Option String,
        (run (sampleScreen sampleNow)
            [.scan sampleQr participantScanEnv,
             .storeValidationResult (some sampleValidation)
               (answerEnv "2024-01-10 08:30:00" absen)]).2
          = .alert "Past Activity"
              "This activity was in the past. Attendance will be marked as absent."
              (pastActivityButtons sampleQr)
            :: (run { sampleScreen sampleNow with activityDateStatus := .valid }
                [.scan sampleQr participantScanEnv,
                 .storeValidationResult (some sampleValidation)
                   (answerEnv "2024-01-10 08:30:00" absen)]).2 ∧
        (run (sampleScreen sampleNow)
            [.scan sampleQr participantScanEnv,
             .storeValidationResult (some sampleValidation)
               (answerEnv "2024-01-10 08:30:00" absen)]).2
          = [.alert "Past Activity"
               "This activity was in the past. Attendance will be marked as absent."
               (pastActivityButtons sampleQr),
             .validateTutorToken "T1",
             .dispatchValidateToken "T1",
             .dispatchRecordAttendanceByQr
               { id_anak := 1, id_aktivitas := some 7, status := none, token := "T1",
                 arrival_time := "2024-01-10 08:30:00" },
             .playSound,
             .showToast
               ((presence { data := some { absen := absen, tutorNama := none } }).1
                 ++ ": " ++ "Student")
               (presence { data := some { absen := absen, tutorNama := none } }).2] ∧
        ((presence { data := some { absen := absen, tutorNama := none } }).1 = "Absent" ↔
          absen = some "Tidak")) := by
  refine ⟨by decide, by decide, by decide, by decide, by decide, ?_⟩
  intro absen
  refine ⟨rfl, rfl, ?_⟩
  rcases absen with _ | a
  · simp [presence]
  · by_cases h1 : a = "Tidak"
    · simp [presence, h1]
    · by_cases h2 : a = "Terlambat"
      · simp [presence, h2]
      · simp [presence, h1, h2]

/-- C14.  For an activity scheduled on the day of arrival, with late threshold
`threshold`: a record arriving at or before the threshold has derived status OnTime and
is shown as Present with type success, a record arriving after it has derived status Late
and is shown as Late with type warning, by the participant handler and by the instructor
handler alike; the record submitted carries the formatted arrival time and, for a
participant, status null.  A record handed to the offline queue carries the arrival time
in the same way.  The recording that follows a validated scan does not read the gate's
classification of the activity. -/
theorem today_status_follows_threshold (tz scheduled threshold arrival : Int)
    (formatted : String) (id : Option Nat) (vr : Option ValidationResult) (token : String)
    (id_anak : Nat) (hday : localDay tz scheduled = localDay tz arrival) :
    (arrival ≤ threshold →
      derivedStatus tz scheduled threshold arrival = .onTime ∧
        handleAttendanceRecording true id vr
            (authorityEnv tz scheduled threshold arrival formatted) token id_anak
          = [.dispatchRecordAttendanceByQr
               { id_anak := id_anak, id_aktivitas := id, status := none, token := token,
                 arrival_time := formatted },
             .playSound,
             .showToast
               ("Present" ++ ": "
                 ++ orElse ((vr.bind fun r => r.anak).bind fun a => a.full_name) "Student")
               .success] ∧
        handleTutorAttendanceRecording true id
            (authorityEnv tz scheduled threshold arrival formatted) token
          = [.dispatchRecordTutorAttendanceByQr
               { id_aktivitas := id, token := token, arrival_time := formatted },
             .playSound,
             .showToast ("Present" ++ ": " ++ "Tutor" ++ " (Tutor)") .success]) ∧
    (threshold < arrival →
      derivedStatus tz scheduled threshold arrival = .late ∧
        handleAttendanceRecording true id vr
            (authorityEnv tz scheduled threshold arrival formatted) token id_anak
          = [.dispatchRecordAttendanceByQr
               { id_anak := id_anak, id_aktivitas := id, status := none, token := token,
                 arrival_time := formatted },
             .playSound,
             .showToast
               ("Late" ++ ": "
                 ++ orElse ((vr.bind fun r => r.anak).bind fun a => a.full_name) "Student")
               .warning] ∧
        handleTutorAttendanceRecording true id
            (authorityEnv tz scheduled threshold arrival formatted) token
          = [.dispatchRecordTutorAttendanceByQr
               { id_aktivitas := id, token := token, arrival_time := formatted },
             .playSound,
             .showToast ("Late" ++ ": " ++ "Tutor" ++ " (Tutor)") .warning]) ∧
    (∀ env : RecordEnv,
      (handleAttendanceRecording false id vr env token id_anak).head?
        = some (.offlineProcessAttendance
            (.participant
              { id_anak := id_anak, id_aktivitas := id, status := none, token := token,
                arrival_time := env.formattedArrivalTime }) "qr")) ∧
    (∀ (s : Screen) (env : RecordEnv) (status : ActivityDateStatus),
      validationEffect { s with activityDateStatus := status } env
        = validationEffect s env) := by
  have hnot : ¬ (localDay tz scheduled < localDay tz arrival) := by omega
  refine ⟨?_, ?_, ?_, fun _ _ _ => rfl⟩
  rotate_left 2
  · intro env
    cases hoff : env.offline <;> simp [handleAttendanceRecording, hoff]
  · intro h
    have hd : derivedStatus tz scheduled threshold arrival = .onTime := by
      simp [derivedStatus, hnot, h]
    refine ⟨hd, ?_, ?_⟩
    · simp [handleAttendanceRecording, authorityEnv, answerEnv, hd, absenOf, presence]
    · simp [handleTutorAttendanceRecording, authorityEnv, answerEnv, hd, absenOf, presence,
        orElse]
  · intro h
    have hle : ¬ (arrival ≤ threshold) := by omega
    have hd : derivedStatus tz scheduled threshold arrival = .late := by
      simp [derivedStatus, hnot, hle]
    refine ⟨hd, ?_, ?_⟩
    · simp [handleAttendanceRecording, authorityEnv, answerEnv, hd, absenOf, presence]
    · simp [handleTutorAttendanceRecording, authorityEnv, answerEnv, hd, absenOf, presence,
        orElse]

/-- C14, witness: the sample activity with a threshold of 09:00, a participant arriving
at 08:30 and one arriving at 09:30. -/
theorem today_status_follows_threshold_witness :
    localDay sampleZone sampleActivityDate = localDay sampleZone sampleNow ∧
      sampleNow ≤ sampleThreshold ∧
      sampleThreshold < sampleLateArrival ∧
      handleAttendanceRecording true (some 7) (some sampleValidation)
          (authorityEnv sampleZone sampleActivityDate sampleThreshold sampleNow
            "2024-01-10 08:30:00") "T1" 1
        = [.dispatchRecordAttendanceByQr
             { id_anak := 1, id_aktivitas := some 7, status := none, token := "T1",
               arrival_time := "2024-01-10 08:30:00" },
           .playSound,
           .showToast "Present: Student" .success] ∧
      handleAttendanceRecording true (some 7) (some sampleValidation)
          (authorityEnv sampleZone sampleActivityDate sampleThreshold sampleLateArrival
            "2024-01-10 09:30:00") "T1" 1
        = [.dispatchRecordAttendanceByQr
             { id_anak := 1, id_aktivitas := some 7, status := none, token := "T1",
               arrival_time := "2024-01-10 09:30:00" },
           .playSound,
           .showToast "Late: Student" .warning] :=
  ⟨by decide, by decide, by decide,
    ((today_status_follows_threshold sampleZone sampleActivityDate sampleThreshold sampleNow
      "2024-01-10 08:30:00" (some 7) (some sampleValidation) "T1" 1 (by decide)).1
      (by decide)).2.1,
    ((today_status_follows_threshold sampleZone sampleActivityDate sampleThreshold
      sampleLateArrival "2024-01-10 09:30:00" (some 7) (some sampleValidation) "T1" 1
      (by decide)).2.1 (by decide)).2.1⟩

end OfflineSync

namespace QrScannerScreen

/-! ## Claims on the scanner between renders -/

/-- When nothing arrives in between, the events of one scan (the call of `onScan`, the
answer to the dialog, the return of the probe, the settlement of the recording) perform
the effects of `handleScan` and leave its cells. -/
theorem handleScan_eq_live_run (s : Screen) (env : ScanEnv) (qrData : QrData) :
    (Live.run (Live.ofScreen s)
        [.scan qrData, .press 0 env.pressed, .probeSettled 0 env.probe env.tutor,
         .recordingSettled 0]).2
      = (handleScan s env qrData).2 ∧
    (Live.run (Live.ofScreen s)
        [.scan qrData, .press 0 env.pressed, .probeSettled 0 env.probe env.tutor,
         .recordingSettled 0]).1.cells
      = (handleScan s env qrData).1 := by
  have hsplit : ∀ trace : List Effect, List.take 1 trace ++ trace.tail = trace := by
    intro trace
    cases trace <;> simp
  rcases s with ⟨id, kn, ic, ib, ks, ip, st, vr⟩
  rcases env with ⟨pressed, probe, tutor⟩
  cases hid : truthyId id <;> cases ip <;> cases st <;>
    rcases pressed with _ | _ | _ | n <;> rcases probe with ⟨_ | _⟩ | _ | e <;>
    simp [Live.run, Live.step, Live.handleScan, Live.ofScreen, handleScan, hid, Live.press,
      Live.probeSettled, pressButton, proceedWithScan, Live.proceedWithScan,
      validateIfTutorToken, pastActivityButtons, hsplit]

/-- C21, counterexample.  Three runs in which a second scan is let through while the
first is still in process.  Two scans arrive before the screen is rendered again: the
first has set `isProcessing`, the second still reads the rendered value and starts its
own probe.  Two scans of a past activity each open the dialog, which sets nothing; both
are confirmed and both probes are awaited together, the second started while the rendered
`isProcessing` is true.  An instructor scan awaits the settlement of its recording, the
timer fires and the screen is rendered: the next scan is let through. -/
theorem two_scans_in_process :
    (Live.step (Live.ofScreen undatedScreen) (.scan sampleQr)).1.cells.isProcessing
        = true ∧
      (Live.run (Live.ofScreen undatedScreen) [.scan sampleQr, .scan secondQr]).2
        = [.validateTutorToken "T1", .validateTutorToken "T2"] ∧
      (Live.run (Live.ofScreen undatedScreen) [.scan sampleQr, .scan secondQr]).1.probes
        = [sampleQr, secondQr] ∧
      (Live.run (Live.ofScreen (sampleScreen sampleDayAfter))
          [.scan sampleQr, .render, .scan secondQr, .press 0 (some 1),
           .render]).1.rendered.isProcessing = true ∧
      (Live.run (Live.ofScreen (sampleScreen sampleDayAfter))
          [.scan sampleQr, .render, .scan secondQr, .press 0 (some 1), .render,
           .press 0 (some 1)]).2
        = [.alert "Past Activity"
             "This activity was in the past. Attendance will be marked as absent."
             (pastActivityButtons sampleQr),
           .alert "Past Activity"
             "This activity was in the past. Attendance will be marked as absent."
             (pastActivityButtons secondQr),
           .validateTutorToken "T1",
           .validateTutorToken "T2"] ∧
      (Live.run (Live.ofScreen (sampleScreen sampleDayAfter))
          [.scan sampleQr, .render, .scan secondQr, .press 0 (some 1), .render,
           .press 0 (some 1)]).1.probes
        = [sampleQr, secondQr] ∧
      (Live.run (Live.ofScreen undatedScreen)
          [.scan sampleQr, .render, .probeSettled 0 (.resolved true) sampleRecordEnv,
           .timer, .render, .scan secondQr]).2
        = [.validateTutorToken "T1",
           .dispatchRecordTutorAttendanceByQr
             { id_aktivitas := some 7, token := "T1",
               arrival_time := "2024-01-10 08:30:00" },
           .validateTutorToken "T2"] ∧
      (Live.run (Live.ofScreen undatedScreen)
          [.scan sampleQr, .render, .probeSettled 0 (.resolved true) sampleRecordEnv,
           .timer, .render, .scan secondQr]).1.recordings
        = [[.playSound, .showToast "Present: Tutor (Tutor)" .success]] ∧
      (Live.run (Live.ofScreen undatedScreen)
          [.scan sampleQr, .render, .probeSettled 0 (.resolved true) sampleRecordEnv,
           .timer, .render, .scan secondQr]).1.probes
        = [secondQr] ∧
      (Live.run (Live.ofScreen undatedScreen)
          [.scan sampleQr, .render, .probeSettled 0 (.resolved true) sampleRecordEnv,
           .timer, .render, .scan secondQr]).1.inProcess
        = 2 := by
  decide

/-- While `isProcessing` is set and rendered, every event other than the firing of a timer
leaves it set and rendered. -/
theorem live_step_keeps_busy (l : Live) (ev : LiveEvent)
    (h : l.rendered.isProcessing = true) (hc : l.cells.isProcessing = true)
    (ht : ev.isTimer = false) :
    (Live.step l ev).1.rendered.isProcessing = true ∧
      (Live.step l ev).1.cells.isProcessing = true := by
  cases ev with
  | scan qrData => simp [Live.step, Live.handleScan, h, hc]
  | render => exact ⟨hc, hc⟩
  | press dialog button =>
    simp only [Live.step, Live.press]
    cases l.dialogs.get? dialog with
    | none => exact ⟨h, hc⟩
    | some qrData =>
      rcases button with _ | _ | _ | n
      · exact ⟨h, hc⟩
      · exact ⟨h, hc⟩
      · exact ⟨h, rfl⟩
      · exact ⟨h, hc⟩
  | probeSettled index probe env =>
    simp only [Live.step, Live.probeSettled]
    cases l.probes.get? index with
    | none => exact ⟨h, hc⟩
    | some qrData =>
      rcases probe with ⟨_ | _⟩ | _ | e <;> exact ⟨h, hc⟩
  | timer => simp [LiveEvent.isTimer] at ht
  | recordingSettled index =>
    simp only [Live.step]
    cases l.recordings.get? index with
    | none => exact ⟨h, hc⟩
    | some rest => exact ⟨h, hc⟩

/-- C21, as amended.  A scan that reaches a render in which `isProcessing` is true is
ignored by `handleScan`: nothing changes and nothing is started, no probe, no validation,
no dialog and no recording.  While the flag is set and rendered and no timer fires, every
scan is ignored, whatever dialogs are answered and whatever probes and recordings settle
in between: the run is the run without the scans, and the flag is still set and rendered
after it.  `proceedWithScan` sets the cell and leaves the rendered value as it is; a
render brings the rendered value up to the cell; and an armed timer clears the cell
whatever probes and recordings are still awaited, which it leaves as they are. -/
theorem scan_ignored_by_busy_render (l : Live) (events : List LiveEvent)
    (h : l.rendered.isProcessing = true) :
    (∀ qrData, Live.step l (.scan qrData) = (l, [])) ∧
      (l.cells.isProcessing = true → (∀ ev ∈ events, ev.isTimer = false) →
        Live.run l events = Live.run l (events.filter fun ev => !ev.isScan) ∧
          (Live.run l events).1.rendered.isProcessing = true ∧
          (Live.run l events).1.cells.isProcessing = true) ∧
      (∀ (l0 : Live) (qrData : QrData),
        (Live.proceedWithScan l0 qrData).1.cells.isProcessing = true ∧
          (Live.proceedWithScan l0 qrData).1.rendered = l0.rendered) ∧
      (∀ l0 : Live, (Live.step l0 .render).1.rendered = l0.cells) ∧
      (∀ (l0 : Live) (n : Nat), l0.timers = n + 1 →
        (Live.step l0 .timer).1.cells.isProcessing = false ∧
          (Live.step l0 .timer).1.probes = l0.probes ∧
          (Live.step l0 .timer).1.recordings = l0.recordings) := by
  have hguard : ∀ (l0 : Live) (qrData : QrData), l0.rendered.isProcessing = true →
      Live.step l0 (.scan qrData) = (l0, []) := by
    intro l0 qrData h0
    simp [Live.step, Live.handleScan, h0]
  refine ⟨fun qrData => hguard l qrData h, ?_, fun _ _ => ⟨rfl, rfl⟩, fun _ => rfl, ?_⟩
  · intro hc ht
    induction events generalizing l with
    | nil => exact ⟨rfl, h, hc⟩
    | cons ev rest ih =>
      have htev : ev.isTimer = false := ht ev (List.mem_cons_self ev rest)
      have htrest : ∀ e ∈ rest, e.isTimer = false :=
        fun e he => ht e (List.mem_cons_of_mem ev he)
      have hk := live_step_keeps_busy l ev h hc htev
      have ih1 := ih (Live.step l ev).1 hk.1 hk.2 htrest
      cases hs : ev.isScan with
      | true =>
        cases ev with
        | scan qrData =>
          have hg := hguard l qrData h
          have ih2 := ih l h hc htrest
          simp only [List.filter_cons, LiveEvent.isScan, Bool.not_true, Bool.false_eq_true,
            if_false, Live.run, hg, List.nil_append]
          exact ih2
        | render => simp [LiveEvent.isScan] at hs
        | press dialog button => simp [LiveEvent.isScan] at hs
        | probeSettled index probe env => simp [LiveEvent.isScan] at hs
        | timer => simp [LiveEvent.isScan] at hs
        | recordingSettled index => simp [LiveEvent.isScan] at hs
      | false =>
        simp only [List.filter_cons, hs, Bool.not_false, if_true, Live.run]
        rw [← ih1.1]
        exact ⟨rfl, ih1.2.1, ih1.2.2⟩
  · intro l0 n hn
    simp [Live.step, hn]

/-- C21, witness: a scan has been let through and the screen rendered; before the timer
fires two more scans arrive, the first probe returns in between, and the screen is
rendered again. -/
theorem scan_ignored_by_busy_render_witness :
    (Live.run (Live.ofScreen undatedScreen)
        [.scan sampleQr, .render]).1.rendered.isProcessing = true ∧
      (Live.run (Live.ofScreen undatedScreen)
        [.scan sampleQr, .render]).1.cells.isProcessing = true ∧
      Live.run
          (Live.run (Live.ofScreen undatedScreen) [.scan sampleQr, .render]).1
          [.scan secondQr, .probeSettled 0 (.resolved false) sampleRecordEnv, .render,
           .scan sampleQr]
        = Live.run
          (Live.run (Live.ofScreen undatedScreen) [.scan sampleQr, .render]).1
          [.probeSettled 0 (.resolved false) sampleRecordEnv, .render] ∧
      (Live.run
          (Live.run (Live.ofScreen undatedScreen) [.scan sampleQr, .render]).1
          [.scan secondQr, .probeSettled 0 (.resolved false) sampleRecordEnv, .render,
           .scan sampleQr]).2
        = [.dispatchValidateToken "T1"] :=
  ⟨by decide, by decide,
    ((scan_ignored_by_busy_render
      (Live.run (Live.ofScreen undatedScreen) [.scan sampleQr, .render]).1
      [.scan secondQr, .probeSettled 0 (.resolved false) sampleRecordEnv, .render,
       .scan sampleQr] (by decide)).2.1 (by decide) (by decide)).1,
    by decide⟩

end QrScannerScreen
